import Mathlib

/-!
Verification of the NDC (Native Data Connector) Go SDK exercise repository.

The development shallowly embeds:
* the wire type model of `src/unnamed/part_001` (the tagged-union map types
  `Type`, `Field`, `ComparisonValue`, `Expression`, `Aggregate`,
  `OrderByTarget`, `ExistsInCollection`, their `UnmarshalJSON` decoders,
  `Encode` serializers, `Type()` discriminant readers and `AsX` narrowing
  accessors);
* the code-generation logic of `src/cmd/ndc-go-sdk/connector.go`
  (import-line emission, the dispatch-branch templates emitted by
  `genConnectorFunctions` / `genConnectorProcedures` /
  `genGeneralOperationResult`, and `getSortedKeys`);
* the reference runtime `Connector.Query` of `src/unnamed/part_001`.

JSON texts are represented by an abstract syntax tree (`Json`); the textual
layer of `encoding/json` is skipped, but the structural behaviour of
`json.Marshal` (map keys emitted in sorted order, struct fields in
declaration order, `omitempty` handling) and `json.Unmarshal` (zero values
for absent struct keys, error on shape mismatches) is modelled faithfully.
JSON objects are association lists; Go maps are unordered, so decoders
assume inputs without duplicate keys (the encoder never produces them) and
read the first occurrence of a key.
-/

namespace NDC

/-- Result type standing for Go's `(T, error)` fallible returns: `.ok` is a
nil error, `.error` carries the error message. -/
inductive Res (α : Type) where
  | ok (a : α) : Res α
  | error (msg : String) : Res α
  deriving DecidableEq, Repr

namespace Res

def isErr {α : Type} : Res α → Bool
  | .ok _ => false
  | .error _ => true

def map {α β : Type} (f : α → β) : Res α → Res β
  | .ok a => .ok (f a)
  | .error e => .error e

end Res

/- JSON document AST.  `jnum` carries integers: the claims never depend on
non-integral numerics, and `encoding/json` round-trips integral numbers
exactly.  `jarr`/`jobj` use the mutual list types below so that all
recursive functions over JSON are structurally recursive (and hence reduce
definitionally in proofs). -/
mutual

inductive Json where
  | jnull : Json
  | jbool (b : Bool) : Json
  | jnum (n : Int) : Json
  | jstr (s : String) : Json
  | jarr (l : JsonList) : Json
  | jobj (o : JsonObj) : Json

inductive JsonList where
  | nil : JsonList
  | cons (hd : Json) (tl : JsonList) : JsonList

inductive JsonObj where
  | nil : JsonObj
  | cons (key : String) (val : Json) (tl : JsonObj) : JsonObj

end

/-- First binding of `key` in a JSON object (objects produced by the encoder
have no duplicate keys, so this is also Go's map lookup). -/
def jLookup (key : String) : JsonObj → Option Json
  | .nil => none
  | .cons k v tl => if k = key then some v else jLookup key tl

/-- Byte-wise character-list comparison underlying the string order used
by `encoding/json` when emitting Go map keys and by `sort.Strings` in
`getSortedKeys` (defined from first principles so that it evaluates inside
the proof kernel). -/
def charListLt : List Char → List Char → Bool
  | [], [] => false
  | [], _ :: _ => true
  | _ :: _, [] => false
  | a :: as, b :: bs =>
      if a.toNat < b.toNat then true
      else if a.toNat = b.toNat then charListLt as bs else false

/-- Strict byte-wise string order. -/
def strLt (a b : String) : Bool := charListLt a.data b.data

/-- Reflexive byte-wise string order. -/
def strLe (a b : String) : Bool := !(strLt b a)

/-- Insert one marshalled map entry keeping keys in ascending order:
`encoding/json` writes Go map keys sorted. -/
def insertEntry (k : String) (v : Json) : JsonObj → JsonObj
  | .nil => .cons k v .nil
  | .cons k2 v2 tl =>
      if strLe k k2 then .cons k v (.cons k2 v2 tl)
      else .cons k2 v2 (insertEntry k v tl)

/- `json.Marshal` of a decoded `any` JSON tree: object keys are emitted in
sorted order (Go maps are unordered; `encoding/json` sorts map keys). -/
mutual

def jsonMarshalAny : Json → Json
  | .jnull => .jnull
  | .jbool b => .jbool b
  | .jnum n => .jnum n
  | .jstr s => .jstr s
  | .jarr l => .jarr (jsonMarshalAnyList l)
  | .jobj o => .jobj (jsonMarshalAnyObj o)

def jsonMarshalAnyList : JsonList → JsonList
  | .nil => .nil
  | .cons hd tl => .cons (jsonMarshalAny hd) (jsonMarshalAnyList tl)

def jsonMarshalAnyObj : JsonObj → JsonObj
  | .nil => .nil
  | .cons k v tl => insertEntry k (jsonMarshalAny v) (jsonMarshalAnyObj tl)

end

/-- Emit one optional struct member (`omitempty`: nothing when absent). -/
def optEntry (k : String) : Option Json → JsonObj → JsonObj
  | none, rest => rest
  | some j, rest => .cons k j rest

/- Keys of every (possibly nested) object strictly ascending: the canonical
form `json.Marshal` produces for values built from Go maps (Go maps are
unordered, the sorted association list is their canonical representation). -/
mutual

def jsonCanon : Json → Bool
  | .jnull | .jbool _ | .jnum _ | .jstr _ => true
  | .jarr l => jsonListCanon l
  | .jobj o => jsonObjCanon o

def jsonListCanon : JsonList → Bool
  | .nil => true
  | .cons hd tl => jsonCanon hd && jsonListCanon tl

def jsonObjCanon : JsonObj → Bool
  | .nil => true
  | .cons _ v .nil => jsonCanon v
  | .cons k v (.cons k2 v2 tl) =>
      strLt k k2 && jsonCanon v && jsonObjCanon (.cons k2 v2 tl)

end

/-- Modelled from the spec: the generic `Contains` helper (not under `src/`)
used by every enum parser; plain slice membership. -/
def Contains (l : List String) (x : String) : Bool := l.contains x

/-- Go's `json.Unmarshal(b, &s)` for a plain `string` target: JSON strings
decode to themselves, JSON `null` is a no-op leaving the zero value `""`,
everything else is a type error (message modelled, only its presence
matters to the claims). -/
def unmarshalString : Json → Res String
  | .jstr s => .ok s
  | .jnull => .ok ""
  | _ => .error "cannot unmarshal into Go value of type string"

/-- `ParseTypeEnum` (src/unnamed/part_001).  Go string enums are modelled as
`String` (their underlying type), validation happens here exactly as in the
source. -/
def ParseTypeEnum (input : String) : Res String :=
  if Contains ["named", "nullable", "array"] input then .ok input
  else .error "failed to parse TypeEnum, expect one of [named nullable array]"

/-- `ParseFieldType` (src/unnamed/part_001). -/
def ParseFieldType (input : String) : Res String :=
  if input = "column" ∨ input = "relationship" then .ok input
  else .error "failed to parse FieldType, expect one of [column relationship]"

/-- `ParseComparisonValueType` (src/unnamed/part_001). -/
def ParseComparisonValueType (input : String) : Res String :=
  if Contains ["column", "scalar", "variable"] input then .ok input
  else .error "failed to parse ComparisonValueType, expect one of [column scalar variable]"

/-- `ParseExpressionType` (src/unnamed/part_001). -/
def ParseExpressionType (input : String) : Res String :=
  if Contains ["and", "or", "not", "unary_comparison_operator",
      "binary_comparison_operator", "binary_array_comparison_operator",
      "exists"] input then .ok input
  else .error "failed to parse ExpressionType, expect one of [and or not unary_comparison_operator binary_comparison_operator binary_array_comparison_operator exists]"

/-- `ParseAggregateType` (src/unnamed/part_001). -/
def ParseAggregateType (input : String) : Res String :=
  if Contains ["column_count", "single_column", "star_count"] input then .ok input
  else .error "failed to parse AggregateType, expect one of [column_count single_column star_count]"

/-- `ParseOrderByTargetType` (src/unnamed/part_001). -/
def ParseOrderByTargetType (input : String) : Res String :=
  if Contains ["column", "single_column_aggregate", "star_count_aggregate"] input then .ok input
  else .error "failed to parse OrderByTargetType, expect one of [column single_column_aggregate star_count_aggregate]"

/-- `ParseExistsInCollectionType` (src/unnamed/part_001). -/
def ParseExistsInCollectionType (input : String) : Res String :=
  if Contains ["related", "unrelated"] input then .ok input
  else .error "failed to parse ExistsInCollectionType, expect one of [related unrelated]"

/-- `ParseComparisonTargetType` (src/unnamed/part_001). -/
def ParseComparisonTargetType (input : String) : Res String :=
  if input = "column" ∨ input = "root_collection_column" then .ok input
  else .error "failed to parse ComparisonTargetType, expect one of [column root_collection_column]"

/-- `ParseBinaryComparisonOperatorType` (src/unnamed/part_001). -/
def ParseBinaryComparisonOperatorType (input : String) : Res String :=
  if Contains ["equal", "other"] input then .ok input
  else .error "failed to parse BinaryComparisonOperatorType, expect one of [equal other]"

/-- `ParseRelationshipArgumentType` (src/unnamed/part_001); its error message
really says `ArgumentType` in the source. -/
def ParseRelationshipArgumentType (input : String) : Res String :=
  if input = "literal" ∨ input = "variable" ∨ input = "column" then .ok input
  else .error "failed to parse ArgumentType, expect one of [literal variable column]"

/-- Modelled from the spec: `PathElement` (defined in the SDK, not under
`src/`), a single relationship-traversal step of a path
("Path is an ordered list of relationship traversal steps"). -/
structure PathElement where
  relationship : String
  deriving DecidableEq, Repr

/-- `ComparisonTarget` (src/unnamed/part_001): a plain struct with JSON tags
`type`, `name`, `path,omitempty`.  The enum-typed field is carried as its
underlying Go string (zero value `""`). -/
structure ComparisonTarget where
  ctype : String
  name : String
  path : List PathElement
  deriving DecidableEq, Repr

/-- `BinaryComparisonOperator` (src/unnamed/part_001): struct with JSON tags
`type` and `name,omitempty`. -/
structure BinaryComparisonOperator where
  btype : String
  name : String
  deriving DecidableEq, Repr

/-- `RelationshipArgument` (src/unnamed/part_001): struct with JSON tags
`type`, `name`, `value` (no omitempty).  The `any`-typed `value` is the
decoded JSON tree; its Go zero value `nil` is `Json.jnull`. -/
structure RelationshipArgument where
  rtype : String
  name : String
  value : Json

/-- `getStringValueByKey` on a decoded `map[string]any` (helper of the SDK,
not under `src/`): the value at the key if it is a string, `""` otherwise.
Used by `RelationshipArgument.UnmarshalJSON`, which unmarshals into
`map[string]interface` first, so here the container is a JSON object. -/
def getStringFromJsonObj (o : JsonObj) (key : String) : String :=
  match jLookup key o with
  | some (.jstr s) => s
  | _ => ""

/-- `RelationshipArgument.UnmarshalJSON` (src/unnamed/part_001). -/
def RelationshipArgumentUnmarshalJSON : Json → Res RelationshipArgument
  | .jobj o =>
      let rawArgumentType := getStringFromJsonObj o "type"
      if rawArgumentType = "" then .error "field type in Argument: required"
      else
        match ParseRelationshipArgumentType rawArgumentType with
        | .error e => .error ("field type in Argument: " ++ e)
        | .ok t =>
            if t = "literal" then
              match jLookup "value" o with
              | none => .error "field value in Argument is required for literal type"
              | some v => .ok { rtype := t, name := "", value := v }
            else
              let name := getStringFromJsonObj o "name"
              if name = "" then
                .error ("field name in Argument is required for " ++ rawArgumentType ++ " type")
              else .ok { rtype := t, name := name, value := .jnull }
  | .jnull => .ok { rtype := "", name := "", value := .jnull }
  | _ => .error "cannot unmarshal into Go value of type map"

/-- `json.Unmarshal` into a `PathElement` (standard struct decoding for the
spec-modelled struct): absent key leaves the zero value. -/
def PathElementUnmarshalJSON : Json → Res PathElement
  | .jobj o =>
      match jLookup "relationship" o with
      | none => .ok { relationship := "" }
      | some rj =>
          match unmarshalString rj with
          | .error e => .error e
          | .ok r => .ok { relationship := r }
  | .jnull => .ok { relationship := "" }
  | _ => .error "cannot unmarshal into Go value of type PathElement"

/-- Decode a JSON array elementwise into `[]PathElement`. -/
def decodePathList : JsonList → Res (List PathElement)
  | .nil => .ok []
  | .cons hd tl =>
      match PathElementUnmarshalJSON hd with
      | .error e => .error e
      | .ok p =>
          match decodePathList tl with
          | .error e => .error e
          | .ok ps => .ok (p :: ps)

/-- `json.Unmarshal` into a `ComparisonTarget` (standard struct decoding;
the `type` field's custom enum `UnmarshalJSON` validates when the key is
present, absent keys leave zero values, `path` tolerates `null`). -/
def ComparisonTargetUnmarshalJSON : Json → Res ComparisonTarget
  | .jobj o =>
      let tyRes : Res String :=
        match jLookup "type" o with
        | none => .ok ""
        | some tj =>
            match unmarshalString tj with
            | .error e => .error e
            | .ok s => ParseComparisonTargetType s
      match tyRes with
      | .error e => .error e
      | .ok ty =>
          let nameRes : Res String :=
            match jLookup "name" o with
            | none => .ok ""
            | some nj => unmarshalString nj
          match nameRes with
          | .error e => .error e
          | .ok name =>
              let pathRes : Res (List PathElement) :=
                match jLookup "path" o with
                | none => .ok []
                | some .jnull => .ok []
                | some (.jarr l) => decodePathList l
                | some _ => .error "cannot unmarshal into Go value of type []PathElement"
              match pathRes with
              | .error e => .error e
              | .ok path => .ok { ctype := ty, name := name, path := path }
  | .jnull => .ok { ctype := "", name := "", path := [] }
  | _ => .error "cannot unmarshal into Go value of type ComparisonTarget"

/-- `json.Unmarshal` into a `BinaryComparisonOperator` (standard struct
decoding; the enum-typed `type` field validates when present). -/
def BinaryComparisonOperatorUnmarshalJSON : Json → Res BinaryComparisonOperator
  | .jobj o =>
      let tyRes : Res String :=
        match jLookup "type" o with
        | none => .ok ""
        | some tj =>
            match unmarshalString tj with
            | .error e => .error e
            | .ok s => ParseBinaryComparisonOperatorType s
      match tyRes with
      | .error e => .error e
      | .ok ty =>
          match (match jLookup "name" o with
                 | none => Res.ok ""
                 | some nj => unmarshalString nj) with
          | .error e => .error e
          | .ok name => .ok { btype := ty, name := name }
  | .jnull => .ok { btype := "", name := "" }
  | _ => .error "cannot unmarshal into Go value of type BinaryComparisonOperator"

/-- Convert an ordinary list to the mutual-inductive JSON list. -/
def jsonListOfList : List Json → JsonList
  | [] => .nil
  | j :: tl => .cons j (jsonListOfList tl)

/-- `json.Marshal` of a `PathElement`. -/
def marshalPathElement (p : PathElement) : Json :=
  .jobj (.cons "relationship" (.jstr p.relationship) .nil)

/-- `json.Marshal` of a `ComparisonTarget`: struct fields in declaration
order, `path` omitted when empty (`omitempty`; a nil and an empty Go slice
are both the empty list here). -/
def marshalComparisonTarget (ct : ComparisonTarget) : Json :=
  .jobj (.cons "type" (.jstr ct.ctype)
    (.cons "name" (.jstr ct.name)
      (match ct.path with
       | [] => .nil
       | ps => .cons "path" (.jarr (jsonListOfList (ps.map marshalPathElement))) .nil)))

/-- `json.Marshal` of a `BinaryComparisonOperator` (`name,omitempty`). -/
def marshalBinaryComparisonOperator (b : BinaryComparisonOperator) : Json :=
  .jobj (.cons "type" (.jstr b.btype)
    (if b.name = "" then .nil else .cons "name" (.jstr b.name) .nil))

/-- `json.Marshal` of a `RelationshipArgument` (all three fields emitted). -/
def marshalRelationshipArgument (a : RelationshipArgument) : Json :=
  .jobj (.cons "type" (.jstr a.rtype)
    (.cons "name" (.jstr a.name)
      (.cons "value" (jsonMarshalAny a.value) .nil)))

/-- `json.Marshal` of a `map[string]RelationshipArgument`: keys in sorted
order. -/
def marshalRelArgs : List (String × RelationshipArgument) → JsonObj
  | [] => .nil
  | (k, a) :: tl => insertEntry k (marshalRelationshipArgument a) (marshalRelArgs tl)

/-- Decode a JSON object into `map[string]RelationshipArgument`, entries in
JSON order (the Go map is unordered; the encoder emits sorted keys, so the
association list comes back sorted). -/
def decodeRelArgsObj : JsonObj → Res (List (String × RelationshipArgument))
  | .nil => .ok []
  | .cons k v tl =>
      match RelationshipArgumentUnmarshalJSON v with
      | .error e => .error e
      | .ok a =>
          match decodeRelArgsObj tl with
          | .error e => .error e
          | .ok rest => .ok ((k, a) :: rest)

/-- `json.Unmarshal` into `map[string]RelationshipArgument`. -/
def decodeRelArgsJson : Json → Res (List (String × RelationshipArgument))
  | .jobj o => decodeRelArgsObj o
  | .jnull => .ok []
  | _ => .error "cannot unmarshal into Go value of type map"

/- Universe of Go dynamic values stored inside the untyped union maps
(`Type`, `Field`, `ComparisonValue`, `Expression`, `Aggregate`,
`OrderByTarget`, `ExistsInCollection` are all `map[string]any`).  Each
constructor records the runtime Go type of the stored value; Go type
assertions in the source dispatch on exactly these.  `GoMap` is an
association list standing for an unordered Go map: the decoders and
encoders of one union variant insert the same key set, and lists are
written in the decoder's insertion order so that list equality coincides
with Go map equality (Go map literals carry no order).  `Query` is
modelled from the spec ("A Query contains: ordered field selections (map),
optional limit/offset, optional order-by (ordered list of OrderByElement,
each an OrderByTarget + direction), optional filter Predicate (an
Expression)"); the type itself lives in the SDK, outside `src/`. -/
mutual

inductive GoValue where
  | vStr (s : String) : GoValue
  | vBool (b : Bool) : GoValue
  | vJson (j : Json) : GoValue
  | vTypeEnum (s : String) : GoValue
  | vFieldType (s : String) : GoValue
  | vCVType (s : String) : GoValue
  | vExprType (s : String) : GoValue
  | vAggType (s : String) : GoValue
  | vOBTType (s : String) : GoValue
  | vEICType (s : String) : GoValue
  | vTypeMap (m : GoMap) : GoValue
  | vExprMap (m : GoMap) : GoValue
  | vCVMap (m : GoMap) : GoValue
  | vEICMap (m : GoMap) : GoValue
  | vExprList (l : GoMapList) : GoValue
  | vCVList (l : GoMapList) : GoValue
  | vCT (ct : ComparisonTarget) : GoValue
  | vUCO (s : String) : GoValue
  | vBCO (b : BinaryComparisonOperator) : GoValue
  | vBACO (s : String) : GoValue
  | vRelArgs (args : List (String × RelationshipArgument)) : GoValue
  | vPath (p : List PathElement) : GoValue
  | vQuery (q : Query) : GoValue

inductive GoMap where
  | nil : GoMap
  | cons (k : String) (v : GoValue) (tl : GoMap) : GoMap

inductive GoMapList where
  | nil : GoMapList
  | cons (hd : GoMap) (tl : GoMapList) : GoMapList

inductive Query where
  | mk (fields : Option FieldsMap) (limit : Option Int) (offset : Option Int)
      (orderBy : Option OrderByElems) (predicate : Option GoMap) : Query

inductive FieldsMap where
  | nil : FieldsMap
  | cons (k : String) (f : GoMap) (tl : FieldsMap) : FieldsMap

inductive OrderByElems where
  | nil : OrderByElems
  | cons (target : GoMap) (dir : String) (tl : OrderByElems) : OrderByElems

end

/-- Lookup in a union value map (Go map indexing; maps built by the
decoders and encoders have no duplicate keys). -/
def mLookup (key : String) : GoMap → Option GoValue
  | .nil => none
  | .cons k v tl => if k = key then some v else mLookup key tl

/-- Go's `json.Unmarshal(b, &x)` for a plain `bool` target (`null` is a
no-op leaving `false`). -/
def unmarshalBool : Json → Res Bool
  | .jbool b => .ok b
  | .jnull => .ok false
  | _ => .error "cannot unmarshal into Go value of type bool"

/-- `ComparisonValue.UnmarshalJSON` (src/unnamed/part_001).  A JSON `null`
leaves the raw `map[string]json.RawMessage` nil, so the discriminant lookup
fails exactly as for a missing key; two of the source's error texts really
say `Type` instead of `ComparisonValue`. -/
def ComparisonValueUnmarshalJSON : Json → Res GoMap
  | .jobj o =>
      match jLookup "type" o with
      | none => .error "field type in ComparisonValue: required"
      | some tj =>
          match (match unmarshalString tj with
                 | .error e => Res.error e
                 | .ok s => ParseComparisonValueType s) with
          | .error e => .error ("field type in ComparisonValue: " ++ e)
          | .ok ty =>
              if ty = "variable" then
                match jLookup "name" o with
                | none => .error "field name in ComparisonValue is required for variable type"
                | some nj =>
                    match unmarshalString nj with
                    | .error e => .error ("field name in ComparisonValue: " ++ e)
                    | .ok name =>
                        .ok (.cons "type" (.vCVType ty) (.cons "name" (.vStr name) .nil))
              else if ty = "column" then
                match jLookup "column" o with
                | none => .error "field column in ComparisonValue is required for column type"
                | some cj =>
                    match ComparisonTargetUnmarshalJSON cj with
                    | .error e => .error ("field column in ComparisonValue: " ++ e)
                    | .ok ct =>
                        .ok (.cons "type" (.vCVType ty) (.cons "column" (.vCT ct) .nil))
              else if ty = "scalar" then
                match jLookup "value" o with
                | none => .error "field value in Type is required for scalar type"
                | some vj =>
                    .ok (.cons "type" (.vCVType ty) (.cons "value" (.vJson vj) .nil))
              else .ok (.cons "type" (.vCVType ty) .nil)
  | .jnull => .error "field type in ComparisonValue: required"
  | _ => .error "cannot unmarshal into Go value of type map"

/-- `Aggregate.UnmarshalJSON` (src/unnamed/part_001). -/
def AggregateUnmarshalJSON : Json → Res GoMap
  | .jobj o =>
      match jLookup "type" o with
      | none => .error "field type in Aggregate: required"
      | some tj =>
          match (match unmarshalString tj with
                 | .error e => Res.error e
                 | .ok s => ParseAggregateType s) with
          | .error e => .error ("field type in Aggregate: " ++ e)
          | .ok ty =>
              if ty = "star_count" then .ok (.cons "type" (.vAggType ty) .nil)
              else if ty = "single_column" then
                match jLookup "column" o with
                | none => .error "field column in Aggregate is required for single_column type"
                | some cj =>
                    match unmarshalString cj with
                    | .error e => .error ("field column in Aggregate: " ++ e)
                    | .ok column =>
                        match jLookup "function" o with
                        | none => .error "field function in Aggregate is required for single_column type"
                        | some fj =>
                            match unmarshalString fj with
                            | .error e => .error ("field function in Aggregate: " ++ e)
                            | .ok fn =>
                                .ok (.cons "type" (.vAggType ty)
                                  (.cons "column" (.vStr column)
                                    (.cons "function" (.vStr fn) .nil)))
              else if ty = "column_count" then
                match jLookup "column" o with
                | none => .error "field column in Aggregate is required for column_count type"
                | some cj =>
                    match unmarshalString cj with
                    | .error e => .error ("field column in Aggregate: " ++ e)
                    | .ok column =>
                        match jLookup "distinct" o with
                        | none => .error "field distinct in Aggregate is required for column_count type"
                        | some dj =>
                            match unmarshalBool dj with
                            | .error e => .error ("field distinct in Aggregate: " ++ e)
                            | .ok distinct =>
                                .ok (.cons "type" (.vAggType ty)
                                  (.cons "column" (.vStr column)
                                    (.cons "distinct" (.vBool distinct) .nil)))
              else .ok (.cons "type" (.vAggType ty) .nil)
  | .jnull => .error "field type in Aggregate: required"
  | _ => .error "cannot unmarshal into Go value of type map"

/-- `json.Unmarshal` into `[]PathElement` (`null` yields the nil slice). -/
def decodePathJson : Json → Res (List PathElement)
  | .jnull => .ok []
  | .jarr l => decodePathList l
  | _ => .error "cannot unmarshal into Go value of type []PathElement"

/-- `OrderByTarget.UnmarshalJSON` (src/unnamed/part_001). -/
def OrderByTargetUnmarshalJSON : Json → Res GoMap
  | .jobj o =>
      match jLookup "type" o with
      | none => .error "field type in OrderByTarget: required"
      | some tj =>
          match (match unmarshalString tj with
                 | .error e => Res.error e
                 | .ok s => ParseOrderByTargetType s) with
          | .error e => .error ("field type in OrderByTarget: " ++ e)
          | .ok ty =>
              if ty = "column" then
                match jLookup "column" o with
                | none => .error "field column in OrderByTarget is required for column type"
                | some cj =>
                    match unmarshalString cj with
                    | .error e => .error ("field column in OrderByTarget: " ++ e)
                    | .ok column =>
                        match jLookup "path" o with
                        | none => .error "field path in OrderByTarget is required for column type"
                        | some pj =>
                            match decodePathJson pj with
                            | .error e => .error ("field path in OrderByTarget: " ++ e)
                            | .ok p =>
                                .ok (.cons "type" (.vOBTType ty)
                                  (.cons "column" (.vStr column)
                                    (.cons "path" (.vPath p) .nil)))
              else if ty = "single_column_aggregate" then
                match jLookup "column" o with
                | none => .error "field column in OrderByTarget is required for single_column_aggregate type"
                | some cj =>
                    match unmarshalString cj with
                    | .error e => .error ("field column in OrderByTarget: " ++ e)
                    | .ok column =>
                        match jLookup "function" o with
                        | none => .error "field function in OrderByTarget is required for single_column_aggregate type"
                        | some fj =>
                            match unmarshalString fj with
                            | .error e => .error ("field function in OrderByTarget: " ++ e)
                            | .ok fn =>
                                match jLookup "path" o with
                                | none => .error "field path in OrderByTarget is required for single_column_aggregate type"
                                | some pj =>
                                    match decodePathJson pj with
                                    | .error e => .error ("field path in OrderByTarget: " ++ e)
                                    | .ok p =>
                                        .ok (.cons "type" (.vOBTType ty)
                                          (.cons "column" (.vStr column)
                                            (.cons "function" (.vStr fn)
                                              (.cons "path" (.vPath p) .nil))))
              else if ty = "star_count_aggregate" then
                match jLookup "path" o with
                | none => .error "field path in OrderByTarget is required for star_count_aggregate type"
                | some pj =>
                    match decodePathJson pj with
                    | .error e => .error ("field path in OrderByTarget: " ++ e)
                    | .ok p =>
                        .ok (.cons "type" (.vOBTType ty) (.cons "path" (.vPath p) .nil))
              else .ok (.cons "type" (.vOBTType ty) .nil)
  | .jnull => .error "field type in OrderByTarget: required"
  | _ => .error "cannot unmarshal into Go value of type map"

/-- `ExistsInCollection.UnmarshalJSON` (src/unnamed/part_001).  One wrapped
error text of the `related` arm really says `name` in the source. -/
def ExistsInCollectionUnmarshalJSON : Json → Res GoMap
  | .jobj o =>
      match jLookup "type" o with
      | none => .error "field type in ExistsInCollection: required"
      | some tj =>
          match (match unmarshalString tj with
                 | .error e => Res.error e
                 | .ok s => ParseExistsInCollectionType s) with
          | .error e => .error ("field type in ExistsInCollection: " ++ e)
          | .ok ty =>
              if ty = "related" then
                match jLookup "relationship" o with
                | none => .error "field relationship in ExistsInCollection is required for related type"
                | some rj =>
                    match unmarshalString rj with
                    | .error e => .error ("field name in ExistsInCollection: " ++ e)
                    | .ok rel =>
                        match jLookup "arguments" o with
                        | none => .error "field arguments in ExistsInCollection is required for related type"
                        | some aj =>
                            match decodeRelArgsJson aj with
                            | .error e => .error ("field arguments in ExistsInCollection: " ++ e)
                            | .ok args =>
                                .ok (.cons "type" (.vEICType ty)
                                  (.cons "relationship" (.vStr rel)
                                    (.cons "arguments" (.vRelArgs args) .nil)))
              else if ty = "unrelated" then
                match jLookup "collection" o with
                | none => .error "field collection in ExistsInCollection is required for unrelated type"
                | some cj =>
                    match unmarshalString cj with
                    | .error e => .error ("field collection in ExistsInCollection: " ++ e)
                    | .ok coll =>
                        match jLookup "arguments" o with
                        | none => .error "field arguments in ExistsInCollection is required for unrelated type"
                        | some aj =>
                            match decodeRelArgsJson aj with
                            | .error e => .error ("field arguments in ExistsInCollection: " ++ e)
                            | .ok args =>
                                .ok (.cons "type" (.vEICType ty)
                                  (.cons "collection" (.vStr coll)
                                    (.cons "arguments" (.vRelArgs args) .nil)))
              else .ok (.cons "type" (.vEICType ty) .nil)
  | .jnull => .error "field type in ExistsInCollection: required"
  | _ => .error "cannot unmarshal into Go value of type map"

/- `Type.UnmarshalJSON` (src/unnamed/part_001 lines 400-453).  The
recursive payloads (`underlying_type`, `element_type`) are fetched by
scanning the object for the key and decoding its value in place
(`scanTypeUnder` / `scanTypeElem` are the bodies of the corresponding
`case` arms); this keeps the recursion structural while computing the same
lookup the Go code performs with `raw[key]` (inputs without duplicate
keys). -/
mutual

def TypeUnmarshalJSON : Json → Res GoMap
  | .jobj o =>
      match jLookup "type" o with
      | none => .error "field type in Type: required"
      | some tj =>
          match (match unmarshalString tj with
                 | .error e => Res.error e
                 | .ok s => ParseTypeEnum s) with
          | .error e => .error ("field type in Type: " ++ e)
          | .ok ty =>
              if ty = "named" then
                match jLookup "name" o with
                | none => .error "field name in Type is required for named type"
                | some nj =>
                    match unmarshalString nj with
                    | .error e => .error ("field name in Type: " ++ e)
                    | .ok name =>
                        .ok (.cons "type" (.vTypeEnum ty) (.cons "name" (.vStr name) .nil))
              else if ty = "nullable" then scanTypeUnder ty o
              else if ty = "array" then scanTypeElem ty o
              else .ok (.cons "type" (.vTypeEnum ty) .nil)
  | .jnull => .error "field type in Type: required"
  | _ => .error "cannot unmarshal into Go value of type map"

def scanTypeUnder (ty : String) : JsonObj → Res GoMap
  | .nil => .error "field underlying_type in Type is required for nullable type"
  | .cons k v tl =>
      if k = "underlying_type" then
        match TypeUnmarshalJSON v with
        | .error e => .error ("field underlying_type in Type: " ++ e)
        | .ok u =>
            .ok (.cons "type" (.vTypeEnum ty) (.cons "underlying_type" (.vTypeMap u) .nil))
      else scanTypeUnder ty tl

def scanTypeElem (ty : String) : JsonObj → Res GoMap
  | .nil => .error "field element_type in Type is required for array type"
  | .cons k v tl =>
      if k = "element_type" then
        match TypeUnmarshalJSON v with
        | .error e => .error ("field element_type in Type: " ++ e)
        | .ok el =>
            .ok (.cons "type" (.vTypeEnum ty) (.cons "element_type" (.vTypeMap el) .nil))
      else scanTypeElem ty tl

end

/-- `json.Unmarshal` into `[]ComparisonValue` (elementwise custom decode;
`null` yields the nil slice). -/
def decodeCVList : JsonList → Res GoMapList
  | .nil => .ok .nil
  | .cons hd tl =>
      match ComparisonValueUnmarshalJSON hd with
      | .error e => .error e
      | .ok m =>
          match decodeCVList tl with
          | .error e => .error e
          | .ok rest => .ok (.cons m rest)

def decodeCVListJson : Json → Res GoMapList
  | .jnull => .ok .nil
  | .jarr l => decodeCVList l
  | _ => .error "cannot unmarshal into Go value of type []ComparisonValue"

/- `Expression.UnmarshalJSON` (src/unnamed/part_001 lines 1789-1932).  The
`UnaryComparisonOperator` and `BinaryArrayComparisonOperator` operand types
live in the SDK outside `src/` and are modelled from the spec as plain
wire strings ("operator + ComparisonTarget"; no validation is described).
Recursive payloads (`expressions`, `expression`, `where`) use scanning
helpers as above; the `not` arm's missing-key message really says
`expressions` in the source. -/
mutual

def ExpressionUnmarshalJSON : Json → Res GoMap
  | .jobj o =>
      match jLookup "type" o with
      | none => .error "field type in Expression: required"
      | some tj =>
          match (match unmarshalString tj with
                 | .error e => Res.error e
                 | .ok s => ParseExpressionType s) with
          | .error e => .error ("field type in Expression: " ++ e)
          | .ok ty =>
              if ty = "and" ∨ ty = "or" then scanExprExpressions ty o
              else if ty = "not" then scanExprNot ty o
              else if ty = "unary_comparison_operator" then
                match jLookup "operator" o with
                | none => .error ("field operator in Expression is required for '" ++ ty ++ "' type")
                | some opj =>
                    match unmarshalString opj with
                    | .error e => .error ("field operator in Expression: " ++ e)
                    | .ok op =>
                        match jLookup "column" o with
                        | none => .error ("field column in Expression is required for '" ++ ty ++ "' type")
                        | some cj =>
                            match ComparisonTargetUnmarshalJSON cj with
                            | .error e => .error ("field column in Expression: " ++ e)
                            | .ok ct =>
                                .ok (.cons "type" (.vExprType ty)
                                  (.cons "operator" (.vUCO op)
                                    (.cons "column" (.vCT ct) .nil)))
              else if ty = "binary_comparison_operator" then
                match jLookup "operator" o with
                | none => .error ("field operator in Expression is required for '" ++ ty ++ "' type")
                | some opj =>
                    match BinaryComparisonOperatorUnmarshalJSON opj with
                    | .error e => .error ("field operator in Expression: " ++ e)
                    | .ok op =>
                        match jLookup "column" o with
                        | none => .error ("field column in Expression is required for '" ++ ty ++ "' type")
                        | some cj =>
                            match ComparisonTargetUnmarshalJSON cj with
                            | .error e => .error ("field column in Expression: " ++ e)
                            | .ok ct =>
                                match jLookup "value" o with
                                | none => .error ("field value in Expression is required for '" ++ ty ++ "' type")
                                | some vj =>
                                    match ComparisonValueUnmarshalJSON vj with
                                    | .error e => .error ("field value in Expression: " ++ e)
                                    | .ok cv =>
                                        .ok (.cons "type" (.vExprType ty)
                                          (.cons "operator" (.vBCO op)
                                            (.cons "column" (.vCT ct)
                                              (.cons "value" (.vCVMap cv) .nil))))
              else if ty = "binary_array_comparison_operator" then
                match jLookup "operator" o with
                | none => .error ("field operator in Expression is required for '" ++ ty ++ "' type")
                | some opj =>
                    match unmarshalString opj with
                    | .error e => .error ("field operator in Expression: " ++ e)
                    | .ok op =>
                        match jLookup "column" o with
                        | none => .error ("field column in Expression is required for '" ++ ty ++ "' type")
                        | some cj =>
                            match ComparisonTargetUnmarshalJSON cj with
                            | .error e => .error ("field column in Expression: " ++ e)
                            | .ok ct =>
                                match jLookup "values" o with
                                | none => .error ("field values in Expression is required for '" ++ ty ++ "' type")
                                | some vj =>
                                    match decodeCVListJson vj with
                                    | .error e => .error ("field values in Expression: " ++ e)
                                    | .ok cvs =>
                                        .ok (.cons "type" (.vExprType ty)
                                          (.cons "operator" (.vBACO op)
                                            (.cons "column" (.vCT ct)
                                              (.cons "values" (.vCVList cvs) .nil))))
              else if ty = "exists" then scanExprWhere ty o o
              else .ok (.cons "type" (.vExprType ty) .nil)
  | .jnull => .error "field type in Expression: required"
  | _ => .error "cannot unmarshal into Go value of type map"

def scanExprExpressions (ty : String) : JsonObj → Res GoMap
  | .nil => .error ("field expressions in Expression is required for '" ++ ty ++ "' type")
  | .cons k v tl =>
      if k = "expressions" then
        match v with
        | .jnull => .ok (.cons "type" (.vExprType ty) (.cons "expressions" (.vExprList .nil) .nil))
        | .jarr l =>
            match decodeExpressionList l with
            | .error e => .error ("field expressions in Expression: " ++ e)
            | .ok es =>
                .ok (.cons "type" (.vExprType ty) (.cons "expressions" (.vExprList es) .nil))
        | _ => .error "field expressions in Expression: cannot unmarshal into Go value of type []Expression"
      else scanExprExpressions ty tl

def scanExprNot (ty : String) : JsonObj → Res GoMap
  | .nil => .error ("field expressions in Expression is required for '" ++ ty ++ "' type")
  | .cons k v tl =>
      if k = "expression" then
        match ExpressionUnmarshalJSON v with
        | .error e => .error ("field expression in Expression: " ++ e)
        | .ok inner =>
            .ok (.cons "type" (.vExprType ty) (.cons "expression" (.vExprMap inner) .nil))
      else scanExprNot ty tl

def scanExprWhere (ty : String) (whole : JsonObj) : JsonObj → Res GoMap
  | .nil => .error ("field where in Expression is required for '" ++ ty ++ "' type")
  | .cons k v tl =>
      if k = "where" then
        match ExpressionUnmarshalJSON v with
        | .error e => .error ("field where in Expression: " ++ e)
        | .ok w =>
            match jLookup "in_collection" whole with
            | none => .error ("field in_collection in Expression is required for '" ++ ty ++ "' type")
            | some icj =>
                match ExistsInCollectionUnmarshalJSON icj with
                | .error e => .error ("field in_collection in Expression: " ++ e)
                | .ok ic =>
                    .ok (.cons "type" (.vExprType ty)
                      (.cons "where" (.vExprMap w)
                        (.cons "in_collection" (.vEICMap ic) .nil)))
      else scanExprWhere ty whole tl

def decodeExpressionList : JsonList → Res GoMapList
  | .nil => .ok .nil
  | .cons hd tl =>
      match ExpressionUnmarshalJSON hd with
      | .error e => .error e
      | .ok m =>
          match decodeExpressionList tl with
          | .error e => .error e
          | .ok rest => .ok (.cons m rest)

end

/- `json.Marshal` over the dynamic-value universe: Go string enums and
wire-string operand types marshal as JSON strings, `map[string]X` values
emit keys in sorted order, structs emit fields in declaration order, and
the spec-modelled `Query` omits its optional members when absent
(`omitempty`). -/
mutual

def marshalValue : GoValue → Json
  | .vStr s => .jstr s
  | .vBool b => .jbool b
  | .vJson j => jsonMarshalAny j
  | .vTypeEnum s => .jstr s
  | .vFieldType s => .jstr s
  | .vCVType s => .jstr s
  | .vExprType s => .jstr s
  | .vAggType s => .jstr s
  | .vOBTType s => .jstr s
  | .vEICType s => .jstr s
  | .vTypeMap m => .jobj (marshalGoMap m)
  | .vExprMap m => .jobj (marshalGoMap m)
  | .vCVMap m => .jobj (marshalGoMap m)
  | .vEICMap m => .jobj (marshalGoMap m)
  | .vExprList l => .jarr (marshalGoMapList l)
  | .vCVList l => .jarr (marshalGoMapList l)
  | .vCT ct => marshalComparisonTarget ct
  | .vUCO s => .jstr s
  | .vBCO b => marshalBinaryComparisonOperator b
  | .vBACO s => .jstr s
  | .vRelArgs args => .jobj (marshalRelArgs args)
  | .vPath p => .jarr (jsonListOfList (p.map marshalPathElement))
  | .vQuery q => marshalQuery q

def marshalGoMap : GoMap → JsonObj
  | .nil => .nil
  | .cons k v tl => insertEntry k (marshalValue v) (marshalGoMap tl)

def marshalGoMapList : GoMapList → JsonList
  | .nil => .nil
  | .cons hd tl => .cons (.jobj (marshalGoMap hd)) (marshalGoMapList tl)

def marshalQuery : Query → Json
  | .mk fields limit offset orderBy predicate =>
      .jobj
        (optEntry "fields"
          (match fields with
           | none => none
           | some fm => some (.jobj (marshalFieldsMap fm)))
          (optEntry "limit"
            (match limit with
             | none => none
             | some n => some (.jnum n))
            (optEntry "offset"
              (match offset with
               | none => none
               | some n => some (.jnum n))
              (optEntry "order_by"
                (match orderBy with
                 | none => none
                 | some obs =>
                     some (.jobj (.cons "elements" (.jarr (marshalOrderByElems obs)) .nil)))
                (optEntry "predicate"
                  (match predicate with
                   | none => none
                   | some p => some (.jobj (marshalGoMap p)))
                  .nil)))))

def marshalFieldsMap : FieldsMap → JsonObj
  | .nil => .nil
  | .cons k f tl => insertEntry k (.jobj (marshalGoMap f)) (marshalFieldsMap tl)

def marshalOrderByElems : OrderByElems → JsonList
  | .nil => .nil
  | .cons target dir tl =>
      .cons (.jobj (.cons "order_direction" (.jstr dir)
        (.cons "target" (.jobj (marshalGoMap target)) .nil)))
        (marshalOrderByElems tl)

end

/-- Modelled from the spec: the SDK helper `unmarshalStringFromJsonMap`
(not under `src/`), used by `Field.UnmarshalJSON` for required string
payloads: absent required key is a field-specific error, a present value
must be a JSON string. -/
def unmarshalStringFromJsonMap (o : JsonObj) (key : String) (required : Bool) : Res String :=
  match jLookup key o with
  | none => if required then .error ("field " ++ key ++ " is required") else .ok ""
  | some v => unmarshalString v

/-- Decode one spec-modelled `OrderByElement` (an OrderByTarget plus a
direction): standard struct decoding, absent keys leave zero values. -/
def decodeOrderByElemJson (j : Json) : Res (GoMap × String) :=
  match j with
  | .jobj eo =>
      match (match jLookup "order_direction" eo with
             | none => Res.ok ""
             | some dj => unmarshalString dj) with
      | .error e => .error e
      | .ok dir =>
          match jLookup "target" eo with
          | none => .ok (.nil, dir)
          | some tj =>
              match OrderByTargetUnmarshalJSON tj with
              | .error e => .error e
              | .ok t => .ok (t, dir)
  | .jnull => .ok (.nil, "")
  | _ => .error "cannot unmarshal into Go value of type OrderByElement"

def decodeOrderByElemList : JsonList → Res OrderByElems
  | .nil => .ok .nil
  | .cons hd tl =>
      match decodeOrderByElemJson hd with
      | .error e => .error e
      | .ok (t, dir) =>
          match decodeOrderByElemList tl with
          | .error e => .error e
          | .ok rest => .ok (.cons t dir rest)

/-- Decode the spec-modelled `order_by` member (a wrapper object holding
the `elements` list of OrderByElement). -/
def decodeOrderByJson : Json → Res (Option OrderByElems)
  | .jnull => .ok none
  | .jobj oo =>
      match jLookup "elements" oo with
      | none => .ok (some .nil)
      | some .jnull => .ok (some .nil)
      | some (.jarr l) =>
          match decodeOrderByElemList l with
          | .error e => .error e
          | .ok es => .ok (some es)
      | some _ => .error "cannot unmarshal into Go value of type []OrderByElement"
  | _ => .error "cannot unmarshal into Go value of type OrderBy"

/-- `json.Unmarshal` into an optional `*int` (`null` and absence both leave
nil). -/
def decodeOptIntJson : Option Json → Res (Option Int)
  | none => .ok none
  | some .jnull => .ok none
  | some (.jnum n) => .ok (some n)
  | some _ => .error "cannot unmarshal into Go value of type int"

/- `Field.UnmarshalJSON` (src/unnamed/part_001 lines 841-903) and the
spec-modelled `Query` ("A Query contains: ordered field selections (map),
optional limit/offset, optional order-by, optional filter Predicate (an
Expression)"; the type lives in the SDK outside `src/`, decoded as a
standard Go struct: absent or null optional members yield nil).  The
recursive payloads (`query` below a Field, `fields` below a Query) are
scanned for in place to keep recursion structural, as for `Type`. -/
mutual

def FieldUnmarshalJSON : Json → Res GoMap
  | .jobj o =>
      match jLookup "type" o with
      | none => .error "field type in Field: required"
      | some tj =>
          match (match unmarshalString tj with
                 | .error e => Res.error e
                 | .ok s => ParseFieldType s) with
          | .error e => .error ("field type in Field: " ++ e)
          | .ok ty =>
              if ty = "column" then
                match unmarshalStringFromJsonMap o "column" true with
                | .error e => .error ("field column in Field: " ++ e)
                | .ok column =>
                    .ok (.cons "type" (.vFieldType ty) (.cons "column" (.vStr column) .nil))
              else if ty = "relationship" then
                match unmarshalStringFromJsonMap o "relationship" true with
                | .error e => .error ("field relationship in Field: " ++ e)
                | .ok rel => scanFieldQuery ty rel o o
              else .ok (.cons "type" (.vFieldType ty) .nil)
  | .jnull => .error "field type in Field: required"
  | _ => .error "cannot unmarshal into Go value of type map"

def scanFieldQuery (ty rel : String) (whole : JsonObj) : JsonObj → Res GoMap
  | .nil => .error "field query in Field: required"
  | .cons k v tl =>
      if k = "query" then
        match QueryUnmarshalJSON v with
        | .error e => .error ("field query in Field: " ++ e)
        | .ok q =>
            match jLookup "arguments" whole with
            | none => .error "field arguments in Field: required"
            | some aj =>
                match decodeRelArgsJson aj with
                | .error e => .error ("field arguments in Field: " ++ e)
                | .ok args =>
                    .ok (.cons "type" (.vFieldType ty)
                      (.cons "relationship" (.vStr rel)
                        (.cons "query" (.vQuery q)
                          (.cons "arguments" (.vRelArgs args) .nil))))
      else scanFieldQuery ty rel whole tl

def QueryUnmarshalJSON : Json → Res Query
  | .jobj o =>
      match scanQueryFields o with
      | .error e => .error e
      | .ok fields =>
          match decodeOptIntJson (jLookup "limit" o) with
          | .error e => .error e
          | .ok limit =>
              match decodeOptIntJson (jLookup "offset" o) with
              | .error e => .error e
              | .ok offset =>
                  match (match jLookup "order_by" o with
                         | none => Res.ok none
                         | some obj2 => decodeOrderByJson obj2) with
                  | .error e => .error e
                  | .ok orderBy =>
                      match (match jLookup "predicate" o with
                             | none => Res.ok none
                             | some pj =>
                                 match ExpressionUnmarshalJSON pj with
                                 | .error e => Res.error e
                                 | .ok p => Res.ok (some p)) with
                      | .error e => .error e
                      | .ok predicate =>
                          .ok (.mk fields limit offset orderBy predicate)
  | .jnull => .ok (.mk none none none none none)
  | _ => .error "cannot unmarshal into Go value of type Query"

def scanQueryFields : JsonObj → Res (Option FieldsMap)
  | .nil => .ok none
  | .cons k v tl =>
      if k = "fields" then
        match v with
        | .jnull => .ok none
        | .jobj fo =>
            match decodeFieldsObj fo with
            | .error e => .error e
            | .ok fm => .ok (some fm)
        | _ => .error "cannot unmarshal into Go value of type map of Field"
      else scanQueryFields tl

def decodeFieldsObj : JsonObj → Res FieldsMap
  | .nil => .ok .nil
  | .cons k v tl =>
      match FieldUnmarshalJSON v with
      | .error e => .error e
      | .ok f =>
          match decodeFieldsObj tl with
          | .error e => .error e
          | .ok rest => .ok (.cons k f rest)

end

/-- Modelled from the spec: the SDK helper `getStringValueByKey` (not under
`src/`) used by the narrowing accessors: the value at the key if its
dynamic type is `string`, `""` otherwise. -/
def getStringValueByKey (m : GoMap) (key : String) : String :=
  match mLookup key m with
  | some (.vStr s) => s
  | _ => ""

/- Variant structs of the wire type model (src/unnamed/part_001) with their
`Encode` methods.  Enum-typed fields carry the underlying Go string.  The
`Encode` bodies are Go map literals, which are unordered; the entries are
listed in the order the corresponding decoder inserts them, so that
association-list equality is Go map equality. -/

structure NamedType where
  ttype : String
  name : String

def NamedTypeEncode (x : NamedType) : GoMap :=
  .cons "type" (.vTypeEnum x.ttype) (.cons "name" (.vStr x.name) .nil)

structure NullableType where
  ttype : String
  underlyingType : GoMap

def NullableTypeEncode (x : NullableType) : GoMap :=
  .cons "type" (.vTypeEnum x.ttype) (.cons "underlying_type" (.vTypeMap x.underlyingType) .nil)

structure ArrayType where
  ttype : String
  elementType : GoMap

def ArrayTypeEncode (x : ArrayType) : GoMap :=
  .cons "type" (.vTypeEnum x.ttype) (.cons "element_type" (.vTypeMap x.elementType) .nil)

structure ColumnField where
  ftype : String
  column : String

def ColumnFieldEncode (x : ColumnField) : GoMap :=
  .cons "type" (.vFieldType x.ftype) (.cons "column" (.vStr x.column) .nil)

structure RelationshipField where
  ftype : String
  query : Query
  relationship : String
  arguments : List (String × RelationshipArgument)

def RelationshipFieldEncode (x : RelationshipField) : GoMap :=
  .cons "type" (.vFieldType x.ftype)
    (.cons "relationship" (.vStr x.relationship)
      (.cons "query" (.vQuery x.query)
        (.cons "arguments" (.vRelArgs x.arguments) .nil)))

structure ComparisonValueColumnS where
  cvtype : String
  column : ComparisonTarget

def ComparisonValueColumnEncode (x : ComparisonValueColumnS) : GoMap :=
  .cons "type" (.vCVType x.cvtype) (.cons "column" (.vCT x.column) .nil)

structure ComparisonValueScalarS where
  cvtype : String
  value : GoValue

def ComparisonValueScalarEncode (x : ComparisonValueScalarS) : GoMap :=
  .cons "type" (.vCVType x.cvtype) (.cons "value" x.value .nil)

structure ComparisonValueVariableS where
  cvtype : String
  name : String

def ComparisonValueVariableEncode (x : ComparisonValueVariableS) : GoMap :=
  .cons "type" (.vCVType x.cvtype) (.cons "name" (.vStr x.name) .nil)

structure AggregateStarCount where
  atype : String

def AggregateStarCountEncode (x : AggregateStarCount) : GoMap :=
  .cons "type" (.vAggType x.atype) .nil

structure AggregateSingleColumn where
  atype : String
  column : String
  function : String

def AggregateSingleColumnEncode (x : AggregateSingleColumn) : GoMap :=
  .cons "type" (.vAggType x.atype)
    (.cons "column" (.vStr x.column) (.cons "function" (.vStr x.function) .nil))

structure AggregateColumnCount where
  atype : String
  column : String
  distinct : Bool

def AggregateColumnCountEncode (x : AggregateColumnCount) : GoMap :=
  .cons "type" (.vAggType x.atype)
    (.cons "column" (.vStr x.column) (.cons "distinct" (.vBool x.distinct) .nil))

structure OrderByColumn where
  otype : String
  column : String
  path : List PathElement

def OrderByColumnEncode (x : OrderByColumn) : GoMap :=
  .cons "type" (.vOBTType x.otype)
    (.cons "column" (.vStr x.column) (.cons "path" (.vPath x.path) .nil))

structure OrderBySingleColumnAggregate where
  otype : String
  column : String
  function : String
  path : List PathElement

def OrderBySingleColumnAggregateEncode (x : OrderBySingleColumnAggregate) : GoMap :=
  .cons "type" (.vOBTType x.otype)
    (.cons "column" (.vStr x.column)
      (.cons "function" (.vStr x.function) (.cons "path" (.vPath x.path) .nil)))

structure OrderByStarCountAggregate where
  otype : String
  path : List PathElement

def OrderByStarCountAggregateEncode (x : OrderByStarCountAggregate) : GoMap :=
  .cons "type" (.vOBTType x.otype) (.cons "path" (.vPath x.path) .nil)

structure ExistsInCollectionRelated where
  etype : String
  relationship : String
  arguments : List (String × RelationshipArgument)

def ExistsInCollectionRelatedEncode (x : ExistsInCollectionRelated) : GoMap :=
  .cons "type" (.vEICType x.etype)
    (.cons "relationship" (.vStr x.relationship)
      (.cons "arguments" (.vRelArgs x.arguments) .nil))

structure ExistsInCollectionUnrelated where
  etype : String
  collection : String
  arguments : List (String × RelationshipArgument)

def ExistsInCollectionUnrelatedEncode (x : ExistsInCollectionUnrelated) : GoMap :=
  .cons "type" (.vEICType x.etype)
    (.cons "collection" (.vStr x.collection)
      (.cons "arguments" (.vRelArgs x.arguments) .nil))

structure ExpressionAnd where
  xtype : String
  expressions : GoMapList

def ExpressionAndEncode (x : ExpressionAnd) : GoMap :=
  .cons "type" (.vExprType x.xtype) (.cons "expressions" (.vExprList x.expressions) .nil)

structure ExpressionOr where
  xtype : String
  expressions : GoMapList

def ExpressionOrEncode (x : ExpressionOr) : GoMap :=
  .cons "type" (.vExprType x.xtype) (.cons "expressions" (.vExprList x.expressions) .nil)

structure ExpressionNot where
  xtype : String
  expression : GoMap

def ExpressionNotEncode (x : ExpressionNot) : GoMap :=
  .cons "type" (.vExprType x.xtype) (.cons "expression" (.vExprMap x.expression) .nil)

structure ExpressionUnaryComparisonOperator where
  xtype : String
  operator : String
  column : ComparisonTarget

def ExpressionUnaryComparisonOperatorEncode (x : ExpressionUnaryComparisonOperator) : GoMap :=
  .cons "type" (.vExprType x.xtype)
    (.cons "operator" (.vUCO x.operator) (.cons "column" (.vCT x.column) .nil))

structure ExpressionBinaryComparisonOperator where
  xtype : String
  operator : BinaryComparisonOperator
  column : ComparisonTarget
  value : GoMap

def ExpressionBinaryComparisonOperatorEncode (x : ExpressionBinaryComparisonOperator) : GoMap :=
  .cons "type" (.vExprType x.xtype)
    (.cons "operator" (.vBCO x.operator)
      (.cons "column" (.vCT x.column) (.cons "value" (.vCVMap x.value) .nil)))

structure ExpressionBinaryArrayComparisonOperator where
  xtype : String
  operator : String
  column : ComparisonTarget
  values : GoMapList

def ExpressionBinaryArrayComparisonOperatorEncode
    (x : ExpressionBinaryArrayComparisonOperator) : GoMap :=
  .cons "type" (.vExprType x.xtype)
    (.cons "operator" (.vBACO x.operator)
      (.cons "column" (.vCT x.column) (.cons "values" (.vCVList x.values) .nil)))

structure ExpressionExists where
  xtype : String
  whereExpr : GoMap
  inCollection : GoMap

def ExpressionExistsEncode (x : ExpressionExists) : GoMap :=
  .cons "type" (.vExprType x.xtype)
    (.cons "where" (.vExprMap x.whereExpr)
      (.cons "in_collection" (.vEICMap x.inCollection) .nil))

/- Discriminant readers, one per union (`Type()` methods in the source):
the stored tag may be either a raw `string` (parsed and validated) or the
union's own enum type (returned unvalidated); anything else is an error
(the source renders the offending value with `%+v`; the rendering is not
modelled, only the error). -/

def TypeGetType (m : GoMap) : Res String :=
  match mLookup "type" m with
  | none => .error "type field is required"
  | some (.vStr s) => ParseTypeEnum s
  | some (.vTypeEnum s) => .ok s
  | some _ => .error "invalid type"

def FieldGetType (m : GoMap) : Res String :=
  match mLookup "type" m with
  | none => .error "type field is required"
  | some (.vStr s) => ParseFieldType s
  | some (.vFieldType s) => .ok s
  | some _ => .error "invalid type"

def ComparisonValueGetType (m : GoMap) : Res String :=
  match mLookup "type" m with
  | none => .error "type field is required"
  | some (.vStr s) => ParseComparisonValueType s
  | some (.vCVType s) => .ok s
  | some _ => .error "invalid type"

def ExpressionGetType (m : GoMap) : Res String :=
  match mLookup "type" m with
  | none => .error "type field is required"
  | some (.vStr s) => ParseExpressionType s
  | some (.vExprType s) => .ok s
  | some _ => .error "invalid type"

def AggregateGetType (m : GoMap) : Res String :=
  match mLookup "type" m with
  | none => .error "type field is required"
  | some (.vStr s) => ParseAggregateType s
  | some (.vAggType s) => .ok s
  | some _ => .error "invalid type"

def OrderByTargetGetType (m : GoMap) : Res String :=
  match mLookup "type" m with
  | none => .error "type field is required"
  | some (.vStr s) => ParseOrderByTargetType s
  | some (.vOBTType s) => .ok s
  | some _ => .error "invalid type"

def ExistsInCollectionGetType (m : GoMap) : Res String :=
  match mLookup "type" m with
  | none => .error "type field is required"
  | some (.vStr s) => ParseExistsInCollectionType s
  | some (.vEICType s) => .ok s
  | some _ => .error "invalid type"

/- Narrowing accessors (`AsX` methods in the source). -/

def TypeAsNamed (ty : GoMap) : Res NamedType :=
  match TypeGetType ty with
  | .error e => .error e
  | .ok t =>
      if t ≠ "named" then .error ("invalid type; expected named, got " ++ t)
      else .ok { ttype := t, name := getStringValueByKey ty "name" }

def TypeAsNullable (ty : GoMap) : Res NullableType :=
  match TypeGetType ty with
  | .error e => .error e
  | .ok t =>
      if t ≠ "nullable" then .error ("invalid type; expected nullable, got " ++ t)
      else
        match mLookup "underlying_type" ty with
        | none => .error "underlying_type is required"
        | some (.vTypeMap u) => .ok { ttype := t, underlyingType := u }
        | some _ => .error "underlying_type is not Type type"

def TypeAsArray (ty : GoMap) : Res ArrayType :=
  match TypeGetType ty with
  | .error e => .error e
  | .ok t =>
      if t ≠ "array" then .error ("invalid type; expected array, got " ++ t)
      else
        match mLookup "element_type" ty with
        | none => .error "element_type is required"
        | some (.vTypeMap el) => .ok { ttype := t, elementType := el }
        | some _ => .error "element_type is not Type type"

def FieldAsColumn (m : GoMap) : Res ColumnField :=
  match FieldGetType m with
  | .error e => .error e
  | .ok t =>
      if t ≠ "column" then .error ("invalid type; expected column, got " ++ t)
      else
        let column := getStringValueByKey m "column"
        if column = "" then .error "ColumnField.column is required"
        else .ok { ftype := t, column := column }

def FieldAsRelationship (m : GoMap) : Res RelationshipField :=
  match FieldGetType m with
  | .error e => .error e
  | .ok t =>
      if t ≠ "relationship" then .error ("invalid type; expected relationship, got " ++ t)
      else
        let relationship := getStringValueByKey m "relationship"
        if relationship = "" then .error "RelationshipField.relationship is required"
        else
          match mLookup "query" m with
          | none => .error "RelationshipField.query is required"
          | some (.vQuery q) =>
              (match mLookup "arguments" m with
               | none => .error "RelationshipField.arguments is required"
               | some (.vRelArgs args) =>
                   .ok { ftype := t, query := q, relationship := relationship, arguments := args }
               | some _ => .error "invalid RelationshipField.arguments type")
          | some _ => .error "invalid RelationshipField.query type"

def ComparisonValueAsScalar (cv : GoMap) : Res ComparisonValueScalarS :=
  match ComparisonValueGetType cv with
  | .error e => .error e
  | .ok ty =>
      if ty ≠ "scalar" then .error ("invalid type; expected scalar, got " ++ ty)
      else
        match mLookup "value" cv with
        | none => .error "ComparisonValueScalar.value is required"
        | some v => .ok { cvtype := ty, value := v }

def ComparisonValueAsColumn (cv : GoMap) : Res ComparisonValueColumnS :=
  match ComparisonValueGetType cv with
  | .error e => .error e
  | .ok ty =>
      if ty ≠ "column" then .error ("invalid type; expected column, got " ++ ty)
      else
        match mLookup "column" cv with
        | none => .error "ComparisonValueColumn.column is required"
        | some (.vCT ct) => .ok { cvtype := ty, column := ct }
        | some _ => .error "invalid ComparisonValueColumn.column; expected ComparisonTarget"

def ComparisonValueAsVariable (cv : GoMap) : Res ComparisonValueVariableS :=
  match ComparisonValueGetType cv with
  | .error e => .error e
  | .ok ty =>
      if ty ≠ "variable" then .error ("invalid type; expected variable, got " ++ ty)
      else
        let name := getStringValueByKey cv "name"
        if name = "" then .error "ComparisonValueVariable.name is required"
        else .ok { cvtype := ty, name := name }

def AggregateAsStarCount (m : GoMap) : Res AggregateStarCount :=
  match AggregateGetType m with
  | .error e => .error e
  | .ok t =>
      if t ≠ "star_count" then .error ("invalid type; expected: star_count, got: " ++ t)
      else .ok { atype := t }

def AggregateAsSingleColumn (m : GoMap) : Res AggregateSingleColumn :=
  match AggregateGetType m with
  | .error e => .error e
  | .ok t =>
      if t ≠ "single_column" then .error ("invalid type; expected: single_column, got: " ++ t)
      else
        let column := getStringValueByKey m "column"
        if column = "" then .error "AggregateSingleColumn.column is required"
        else
          let function := getStringValueByKey m "function"
          if function = "" then .error "AggregateSingleColumn.function is required"
          else .ok { atype := t, column := column, function := function }

def AggregateAsColumnCount (m : GoMap) : Res AggregateColumnCount :=
  match AggregateGetType m with
  | .error e => .error e
  | .ok t =>
      if t ≠ "column_count" then .error ("invalid type; expected: column_count, got: " ++ t)
      else
        let column := getStringValueByKey m "column"
        if column = "" then .error "AggregateColumnCount.column is required"
        else
          match mLookup "distinct" m with
          | none => .error "AggregateColumnCount.distinct is required"
          | some (.vBool d) => .ok { atype := t, column := column, distinct := d }
          | some _ => .error "invalid AggregateColumnCount.distinct type; expected bool"

def OrderByTargetAsColumn (m : GoMap) : Res OrderByColumn :=
  match OrderByTargetGetType m with
  | .error e => .error e
  | .ok t =>
      if t ≠ "column" then .error ("invalid type; expected: column, got: " ++ t)
      else
        let column := getStringValueByKey m "column"
        if column = "" then .error "OrderByColumn.column is required"
        else
          match mLookup "path" m with
          | none => .error "OrderByColumn.path is required"
          | some (.vPath p) => .ok { otype := t, column := column, path := p }
          | some _ => .error "invalid OrderByColumn.path type; expected: []PathElement"

def OrderByTargetAsSingleColumnAggregate (m : GoMap) : Res OrderBySingleColumnAggregate :=
  match OrderByTargetGetType m with
  | .error e => .error e
  | .ok t =>
      if t ≠ "single_column_aggregate" then
        .error ("invalid type; expected: single_column_aggregate, got: " ++ t)
      else
        let column := getStringValueByKey m "column"
        if column = "" then .error "OrderBySingleColumnAggregate.column is required"
        else
          let function := getStringValueByKey m "function"
          if function = "" then .error "OrderBySingleColumnAggregate.function is required"
          else
            match mLookup "path" m with
            | none => .error "OrderBySingleColumnAggregate.path is required"
            | some (.vPath p) =>
                .ok { otype := t, column := column, function := function, path := p }
            | some _ => .error "invalid OrderBySingleColumnAggregate.path type; expected: []PathElement"

def OrderByTargetAsStarCountAggregate (m : GoMap) : Res OrderByStarCountAggregate :=
  match OrderByTargetGetType m with
  | .error e => .error e
  | .ok t =>
      if t ≠ "star_count_aggregate" then
        .error ("invalid type; expected: star_count_aggregate, got: " ++ t)
      else
        match mLookup "path" m with
        | none => .error "OrderByStarCountAggregate.path is required"
        | some (.vPath p) => .ok { otype := t, path := p }
        | some _ => .error "invalid OrderByStarCountAggregate.path type; expected: []PathElement"

def ExistsInCollectionAsRelated (m : GoMap) : Res ExistsInCollectionRelated :=
  match ExistsInCollectionGetType m with
  | .error e => .error e
  | .ok t =>
      if t ≠ "related" then .error ("invalid type; expected: related, got: " ++ t)
      else
        let relationship := getStringValueByKey m "relationship"
        if relationship = "" then .error "ExistsInCollectionRelated.relationship is required"
        else
          match mLookup "arguments" m with
          | none => .error "ExistsInCollectionRelated.arguments is required"
          | some (.vRelArgs args) =>
              .ok { etype := t, relationship := relationship, arguments := args }
          | some _ => .error "invalid ExistsInCollectionRelated.arguments type; expected: map of RelationshipArgument"

def ExistsInCollectionAsUnrelated (m : GoMap) : Res ExistsInCollectionUnrelated :=
  match ExistsInCollectionGetType m with
  | .error e => .error e
  | .ok t =>
      if t ≠ "unrelated" then .error ("invalid type; expected: unrelated, got: " ++ t)
      else
        let collection := getStringValueByKey m "collection"
        if collection = "" then .error "ExistsInCollectionUnrelated.collection is required"
        else
          match mLookup "arguments" m with
          | none => .error "ExistsInCollectionUnrelated.arguments is required"
          | some (.vRelArgs args) =>
              .ok { etype := t, collection := collection, arguments := args }
          | some _ => .error "invalid ExistsInCollectionUnrelated.arguments type; expected: map of RelationshipArgument"

def ExpressionAsAnd (m : GoMap) : Res ExpressionAnd :=
  match ExpressionGetType m with
  | .error e => .error e
  | .ok t =>
      if t ≠ "and" then .error ("invalid type; expected: and, got: " ++ t)
      else
        match mLookup "expressions" m with
        | none => .error "ExpressionAnd.expression is required"
        | some (.vExprList l) => .ok { xtype := t, expressions := l }
        | some _ => .error "invalid ExpressionAnd.expression type; expected: []Expression"

def ExpressionAsOr (m : GoMap) : Res ExpressionOr :=
  match ExpressionGetType m with
  | .error e => .error e
  | .ok t =>
      if t ≠ "or" then .error ("invalid type; expected: or, got: " ++ t)
      else
        match mLookup "expressions" m with
        | none => .error "ExpressionOr.expression is required"
        | some (.vExprList l) => .ok { xtype := t, expressions := l }
        | some _ => .error "invalid ExpressionOr.expression type; expected: []Expression"

def ExpressionAsNot (m : GoMap) : Res ExpressionNot :=
  match ExpressionGetType m with
  | .error e => .error e
  | .ok t =>
      if t ≠ "not" then .error ("invalid type; expected: not, got: " ++ t)
      else
        match mLookup "expression" m with
        | none => .error "ExpressionNot.expression is required"
        | some (.vExprMap inner) => .ok { xtype := t, expression := inner }
        | some _ => .error "invalid ExpressionNot.expression type; expected: Expression"

/-- `Expression.AsUnaryComparisonOperator` (src/unnamed/part_001 lines
2030-2067): unlike every other accessor, a raw `string` operator is
accepted and converted to `UnaryComparisonOperator`. -/
def ExpressionAsUnaryComparisonOperator (m : GoMap) : Res ExpressionUnaryComparisonOperator :=
  match ExpressionGetType m with
  | .error e => .error e
  | .ok t =>
      if t ≠ "unary_comparison_operator" then
        .error ("invalid type; expected: unary_comparison_operator, got: " ++ t)
      else
        match (match mLookup "operator" m with
               | none => Res.error "ExpressionUnaryComparisonOperator.operator is required"
               | some (.vUCO op) => Res.ok op
               | some (.vStr s) => Res.ok s
               | some _ =>
                   Res.error "Invalid ExpressionUnaryComparisonOperator.operator type; expected: UnaryComparisonOperator") with
        | .error e => .error e
        | .ok op =>
            match mLookup "column" m with
            | none => .error "ExpressionUnaryComparisonOperator.column is required"
            | some (.vCT ct) => .ok { xtype := t, operator := op, column := ct }
            | some _ =>
                .error "Invalid ExpressionUnaryComparisonOperator.column type; expected: ComparisonTarget"

/-- `Expression.AsBinaryComparisonOperator` (src/unnamed/part_001 lines
2070-2113): the operator must already be a `BinaryComparisonOperator`
value, a raw string is rejected. -/
def ExpressionAsBinaryComparisonOperator (m : GoMap) : Res ExpressionBinaryComparisonOperator :=
  match ExpressionGetType m with
  | .error e => .error e
  | .ok t =>
      if t ≠ "binary_comparison_operator" then
        .error ("invalid type; expected: binary_comparison_operator, got: " ++ t)
      else
        match mLookup "operator" m with
        | none => .error "ExpressionBinaryComparisonOperator.operator is required"
        | some (.vBCO op) =>
            (match mLookup "column" m with
             | none => .error "ExpressionBinaryComparisonOperator.column is required"
             | some (.vCT ct) =>
                 (match mLookup "value" m with
                  | none => .error "ExpressionBinaryComparisonOperator.value is required"
                  | some (.vCVMap v) =>
                      .ok { xtype := t, operator := op, column := ct, value := v }
                  | some _ =>
                      .error "invalid ExpressionBinaryComparisonOperator.value type; expected: ComparisonValue")
             | some _ =>
                 .error "invalid ExpressionBinaryComparisonOperator.column type; expected: ComparisonTarget")
        | some _ =>
            .error "invalid ExpressionBinaryComparisonOperator.operator type; expected: BinaryComparisonOperator"

def ExpressionAsBinaryArrayComparisonOperator (m : GoMap) :
    Res ExpressionBinaryArrayComparisonOperator :=
  match ExpressionGetType m with
  | .error e => .error e
  | .ok t =>
      if t ≠ "binary_array_comparison_operator" then
        .error ("invalid type; expected: binary_array_comparison_operator, got: " ++ t)
      else
        match mLookup "operator" m with
        | none => .error "ExpressionBinaryComparisonOperator.operator is required"
        | some (.vBACO op) =>
            (match mLookup "column" m with
             | none => .error "ExpressionBinaryComparisonOperator.column is required"
             | some (.vCT ct) =>
                 (match mLookup "values" m with
                  | none => .error "ExpressionBinaryComparisonOperator.values is required"
                  | some (.vCVList vs) =>
                      .ok { xtype := t, operator := op, column := ct, values := vs }
                  | some _ =>
                      .error "invalid ExpressionBinaryArrayComparisonOperator.values type; expected: []ComparisonValue")
             | some _ =>
                 .error "invalid ExpressionBinaryArrayComparisonOperator.column type; expected: ComparisonTarget")
        | some _ =>
            .error "invalid ExpressionBinaryArrayComparisonOperator.operator type; expected: BinaryArrayComparisonOperator"

def ExpressionAsExists (m : GoMap) : Res ExpressionExists :=
  match ExpressionGetType m with
  | .error e => .error e
  | .ok t =>
      if t ≠ "exists" then .error ("invalid type; expected: exists, got: " ++ t)
      else
        match mLookup "where" m with
        | none => .error "ExpressionExists.where is required"
        | some (.vExprMap w) =>
            (match mLookup "in_collection" m with
             | none => .error "ExpressionExists.in_collection is required"
             | some (.vEICMap ic) => .ok { xtype := t, whereExpr := w, inCollection := ic }
             | some _ => .error "invalid ExpressionExists.in_collection type; expected: ExistsInCollection")
        | some _ => .error "invalid ExpressionExists.where type; expected: Expression"

/- Valid constructions of each wire entity.  A "valid construction" of a
union (spec: "for all valid constructions") is a value built from the
variant structs whose recursive payloads are themselves encoded valid
constructions; these inductives enumerate exactly those trees, and the
`...TEncode` functions produce the corresponding `Encode` output.  The
well-formedness predicates add the flat side conditions the decoders
require: enum-typed struct fields hold one of their enumerated values,
names required non-empty by a custom decoder are non-empty, `any`-typed
payloads are decoded-JSON trees in canonical (sorted-object) form, and
`map[string]X` payloads are strictly-sorted association lists (the
canonical representation of an unordered Go map, matching the sorted key
order `json.Marshal` emits). -/

inductive TypeT where
  | named (n : String) : TypeT
  | nullable (u : TypeT) : TypeT
  | array (e : TypeT) : TypeT

def TypeTEncode : TypeT → GoMap
  | .named n => NamedTypeEncode { ttype := "named", name := n }
  | .nullable u => NullableTypeEncode { ttype := "nullable", underlyingType := TypeTEncode u }
  | .array e => ArrayTypeEncode { ttype := "array", elementType := TypeTEncode e }

inductive RelArgT where
  | litArg (v : Json) : RelArgT
  | varArg (n : String) : RelArgT
  | colArg (n : String) : RelArgT

def RelArgTEncode : RelArgT → RelationshipArgument
  | .litArg v => { rtype := "literal", name := "", value := v }
  | .varArg n => { rtype := "variable", name := n, value := .jnull }
  | .colArg n => { rtype := "column", name := n, value := .jnull }

def wfRelArgT : RelArgT → Bool
  | .litArg v => jsonCanon v
  | .varArg n => decide (n ≠ "")
  | .colArg n => decide (n ≠ "")

def encodeArgsList (l : List (String × RelArgT)) : List (String × RelationshipArgument) :=
  l.map (fun p => (p.1, RelArgTEncode p.2))

def wfArgsList : List (String × RelArgT) → Bool
  | [] => true
  | [(_, a)] => wfRelArgT a
  | (k, a) :: (k2, a2) :: tl =>
      strLt k k2 && wfRelArgT a && wfArgsList ((k2, a2) :: tl)

def wfCT (ct : ComparisonTarget) : Bool :=
  decide (ct.ctype = "column" ∨ ct.ctype = "root_collection_column")

def wfBCO (b : BinaryComparisonOperator) : Bool :=
  decide (b.btype = "equal" ∨ b.btype = "other")

inductive CVT where
  | colV (ct : ComparisonTarget) : CVT
  | scalarV (v : Json) : CVT
  | varV (n : String) : CVT

def CVTEncode : CVT → GoMap
  | .colV ct => ComparisonValueColumnEncode { cvtype := "column", column := ct }
  | .scalarV v => ComparisonValueScalarEncode { cvtype := "scalar", value := .vJson v }
  | .varV n => ComparisonValueVariableEncode { cvtype := "variable", name := n }

def wfCVT : CVT → Bool
  | .colV ct => wfCT ct
  | .scalarV v => jsonCanon v
  | .varV _ => true

def CVTListEncode : List CVT → GoMapList
  | [] => .nil
  | cv :: tl => .cons (CVTEncode cv) (CVTListEncode tl)

def wfCVTList : List CVT → Bool
  | [] => true
  | cv :: tl => wfCVT cv && wfCVTList tl

inductive EICT where
  | related (rel : String) (args : List (String × RelArgT)) : EICT
  | unrelated (coll : String) (args : List (String × RelArgT)) : EICT

def EICTEncode : EICT → GoMap
  | .related rel args =>
      ExistsInCollectionRelatedEncode
        { etype := "related", relationship := rel, arguments := encodeArgsList args }
  | .unrelated coll args =>
      ExistsInCollectionUnrelatedEncode
        { etype := "unrelated", collection := coll, arguments := encodeArgsList args }

def wfEICT : EICT → Bool
  | .related _ args => wfArgsList args
  | .unrelated _ args => wfArgsList args

inductive AggT where
  | starCount : AggT
  | singleColumn (c f : String) : AggT
  | columnCount (c : String) (d : Bool) : AggT

def AggTEncode : AggT → GoMap
  | .starCount => AggregateStarCountEncode { atype := "star_count" }
  | .singleColumn c f =>
      AggregateSingleColumnEncode { atype := "single_column", column := c, function := f }
  | .columnCount c d =>
      AggregateColumnCountEncode { atype := "column_count", column := c, distinct := d }

inductive OBTT where
  | column (c : String) (p : List PathElement) : OBTT
  | singleColumnAggregate (c f : String) (p : List PathElement) : OBTT
  | starCountAggregate (p : List PathElement) : OBTT

def OBTTEncode : OBTT → GoMap
  | .column c p => OrderByColumnEncode { otype := "column", column := c, path := p }
  | .singleColumnAggregate c f p =>
      OrderBySingleColumnAggregateEncode
        { otype := "single_column_aggregate", column := c, function := f, path := p }
  | .starCountAggregate p =>
      OrderByStarCountAggregateEncode { otype := "star_count_aggregate", path := p }

mutual

inductive ExprT where
  | andE (l : ExprTList) : ExprT
  | orE (l : ExprTList) : ExprT
  | notE (e : ExprT) : ExprT
  | unaryE (op : String) (ct : ComparisonTarget) : ExprT
  | binaryE (op : BinaryComparisonOperator) (ct : ComparisonTarget) (v : CVT) : ExprT
  | binaryArrE (op : String) (ct : ComparisonTarget) (vs : List CVT) : ExprT
  | existsE (w : ExprT) (ic : EICT) : ExprT

inductive ExprTList where
  | nil : ExprTList
  | cons (hd : ExprT) (tl : ExprTList) : ExprTList

end

mutual

def ExprTEncode : ExprT → GoMap
  | .andE l => ExpressionAndEncode { xtype := "and", expressions := ExprTListEncode l }
  | .orE l => ExpressionOrEncode { xtype := "or", expressions := ExprTListEncode l }
  | .notE e => ExpressionNotEncode { xtype := "not", expression := ExprTEncode e }
  | .unaryE op ct =>
      ExpressionUnaryComparisonOperatorEncode
        { xtype := "unary_comparison_operator", operator := op, column := ct }
  | .binaryE op ct v =>
      ExpressionBinaryComparisonOperatorEncode
        { xtype := "binary_comparison_operator", operator := op, column := ct,
          value := CVTEncode v }
  | .binaryArrE op ct vs =>
      ExpressionBinaryArrayComparisonOperatorEncode
        { xtype := "binary_array_comparison_operator", operator := op, column := ct,
          values := CVTListEncode vs }
  | .existsE w ic =>
      ExpressionExistsEncode
        { xtype := "exists", whereExpr := ExprTEncode w, inCollection := EICTEncode ic }

def ExprTListEncode : ExprTList → GoMapList
  | .nil => .nil
  | .cons hd tl => .cons (ExprTEncode hd) (ExprTListEncode tl)

end

mutual

def wfExprT : ExprT → Bool
  | .andE l => wfExprTList l
  | .orE l => wfExprTList l
  | .notE e => wfExprT e
  | .unaryE _ ct => wfCT ct
  | .binaryE op ct v => wfBCO op && wfCT ct && wfCVT v
  | .binaryArrE _ ct vs => wfCT ct && wfCVTList vs
  | .existsE w ic => wfExprT w && wfEICT ic

def wfExprTList : ExprTList → Bool
  | .nil => true
  | .cons hd tl => wfExprT hd && wfExprTList tl

end

/-- Spec-modelled `OrderByElement`: an OrderByTarget plus a direction. -/
structure OBElemT where
  dir : String
  target : OBTT

mutual

inductive FieldT where
  | column (c : String) : FieldT
  | relationship (rel : String) (q : QueryT) (args : List (String × RelArgT)) : FieldT

inductive QueryT where
  | mk (fields : FieldsOptT) (limit : Option Int) (offset : Option Int)
      (orderBy : Option (List OBElemT)) (pred : Option ExprT) : QueryT

inductive FieldsOptT where
  | fnone : FieldsOptT
  | fsome (ft : FieldsT) : FieldsOptT

inductive FieldsT where
  | nil : FieldsT
  | cons (k : String) (f : FieldT) (tl : FieldsT) : FieldsT

end

def OBElemsEncode : List OBElemT → OrderByElems
  | [] => .nil
  | e :: tl => .cons (OBTTEncode e.target) e.dir (OBElemsEncode tl)

mutual

def FieldTEncode : FieldT → GoMap
  | .column c => ColumnFieldEncode { ftype := "column", column := c }
  | .relationship rel q args =>
      RelationshipFieldEncode
        { ftype := "relationship", query := QueryTEncode q, relationship := rel,
          arguments := encodeArgsList args }

def QueryTEncode : QueryT → Query
  | .mk fields limit offset orderBy pred =>
      .mk (FieldsOptTEncode fields)
        limit offset
        (match orderBy with
         | none => none
         | some l => some (OBElemsEncode l))
        (match pred with
         | none => none
         | some p => some (ExprTEncode p))

def FieldsOptTEncode : FieldsOptT → Option FieldsMap
  | .fnone => none
  | .fsome ft => some (FieldsTEncode ft)

def FieldsTEncode : FieldsT → FieldsMap
  | .nil => .nil
  | .cons k f tl => .cons k (FieldTEncode f) (FieldsTEncode tl)

end

/-- Well-formedness of an optional filter predicate. -/
def wfPredOpt : Option ExprT → Bool
  | none => true
  | some p => wfExprT p

mutual

def wfFieldT : FieldT → Bool
  | .column _ => true
  | .relationship _ q args => wfQueryT q && wfArgsList args

def wfQueryT : QueryT → Bool
  | .mk fields _ _ _ pred => wfFieldsOpt fields && wfPredOpt pred

def wfFieldsOpt : FieldsOptT → Bool
  | .fnone => true
  | .fsome .nil => false
  | .fsome (.cons k f tl) => wfFieldsT (.cons k f tl)

def wfFieldsT : FieldsT → Bool
  | .nil => true
  | .cons _ f .nil => wfFieldT f
  | .cons k f (.cons k2 f2 tl) =>
      strLt k k2 && wfFieldT f && wfFieldsT (.cons k2 f2 tl)

end

/- ## Code generator (src/cmd/ndc-go-sdk/connector.go)

`genConnectorCodeFromTemplate` (lines 121-133) emits one `"%s"` line per
entry of the `cg.rawSchema.Imports` map by ranging over the map directly;
Go's `range` over a map visits keys in an unspecified order, so the
emitted bytes are a function of that iteration order, which we make an
explicit parameter (a permutation of the key set). -/
def genConnectorImportLines (iterationOrder : List String) : String :=
  String.intercalate "\n" (iterationOrder.map (fun importPath => "\"" ++ importPath ++ "\""))

/-- `connectorTypeBuilder.String` (connector.go lines 37-52): the
`import (...)` block of a generated per-package type file, ranging over the
`ctb.imports` map (package path ↦ alias) in map-iteration order. -/
def ctbImportBlock (iterationOrder : List (String × String)) : String :=
  "import (\n" ++
    String.join (iterationOrder.map (fun pa =>
      "  " ++ (if pa.2 = "" then "" else pa.2 ++ " ") ++ "\"" ++ pa.1 ++ "\"\n")) ++
  ")\n"

/-- Result-type flags of an operation (`TypeInfo` fields used by the
generator: `IsScalar`, `IsNullable`, `IsArray`). -/
structure TypeInfo where
  isScalar : Bool
  isNullable : Bool
  isArray : Bool

/-- Outcome of one generated dispatch branch. `ok none` models the Go
`return nil, nil` success, `badRequest` models
`schema.BadRequestError(msg, ...)`, `err` models returning a plain
non-nil `error`. -/
inductive Outcome (α : Type) where
  | ok (v : Option α)
  | badRequest (msg : String)
  | err (e : String)
deriving DecidableEq

/- Semantics of the `case "<name>":` branch that `genConnectorFunctions`
(connector.go lines 135-186) emits into the query dispatch, together with
`genGeneralOperationResult` (lines 188-203).  The branch is run on:
the operation's result-type flags; `fieldsLen` = `len(request.Query.Fields)`;
`hasArgs` = `fn.ArgumentsType != ""`; the outcomes of
`utils.ResolveArgumentVariables` and `args.FromValue`; the user function's
`(rawResult, err)` pair (`ok none` = nil result); and the
`utils.EncodeObject(s)WithColumnSelection` step, abstracted as `encodeF`.
The returned `Bool` records whether the user function was invoked. -/
def runFunctionBranch {α : Type} (rt : TypeInfo) (fieldsLen : Nat) (hasArgs : Bool)
    (resolveVars fromValue : Res Unit) (user : Res (Option α)) (encodeF : α → Res α) :
    Bool × Outcome α :=
  if rt.isScalar = true ∧ 0 < fieldsLen then
    (false, .badRequest "cannot evaluate selection fields for scalar")
  else
    match (if hasArgs then resolveVars else .ok ()) with
    | .error _ => (false, .badRequest "failed to resolve argument variables")
    | .ok _ =>
        match (if hasArgs then fromValue else .ok ()) with
        | .error _ => (false, .badRequest "failed to resolve arguments")
        | .ok _ =>
            if rt.isScalar then
              (true, match user with
                     | .error e => .err e
                     | .ok v => .ok v)
            else
              (true, match user with
                     | .error e => .err e
                     | .ok none =>
                         if rt.isNullable then .ok none
                         else .badRequest "expected not null result"
                     | .ok (some v) =>
                         match encodeF v with
                         | .error e => .err e
                         | .ok r => .ok (some r))

/-- Semantics of the `case "<name>":` branch that `genConnectorProcedures`
(connector.go lines 205-267) emits into the mutation dispatch.
`selection` is the outcome of `operation.Fields.AsArray()` /
`AsObject()` (run only for non-scalar results), `decodeArgs` the outcome
of `json.Unmarshal(operation.Arguments, &args)`, and `evalF` abstracts
`utils.EvalNestedColumnArrayIntoSlice` / `EvalNestedColumnObject`. -/
def runProcedureBranch {α : Type} (rt : TypeInfo) (fieldsLen : Nat)
    (selection : Res Unit) (hasArgs : Bool) (decodeArgs : Res Unit)
    (user : Res (Option α)) (evalF : α → Res α) : Bool × Outcome α :=
  if rt.isScalar = true ∧ 0 < fieldsLen then
    (false, .badRequest "cannot evaluate selection fields for scalar")
  else
    match (if rt.isScalar then .ok () else selection) with
    | .error _ =>
        (false, .badRequest
          (if rt.isArray then "the selection field type must be array"
           else "the selection field type must be object"))
    | .ok _ =>
        match (if hasArgs then decodeArgs else .ok ()) with
        | .error _ => (false, .badRequest "failed to decode arguments")
        | .ok _ =>
            if rt.isScalar then
              (true, match user with
                     | .error e => .err e
                     | .ok v => .ok v)
            else
              (true, match user with
                     | .error e => .err e
                     | .ok none =>
                         if rt.isNullable then .ok none
                         else .badRequest "expected not null result"
                     | .ok (some v) =>
                         match evalF v with
                         | .error e => .err e
                         | .ok r => .ok (some r))

/- ## `Connector.Query` (src/unnamed/part_001 lines 94-149) -/

/-- One element of `request.Variables`
(`schema.QueryRequestVariablesElem`, a `map[string]any`). -/
def QueryRequestVariablesElem : Type := List (String × Json)

/-- A raw database cell as seen through `rows.Scan` into `any`: either a
`[]byte` (converted with `string(v)`) or any other driver value. -/
inductive DbValue where
  | vbytes (s : String)
  | vany (j : Json)

/-- The successful result of `state.Database.Query`: the column names and
the scanned rows. -/
structure DbResult where
  cols : List String
  rows : List (List DbValue)

/-- A `schema.RowSet` as built by `Connector.Query`: only the `Rows`
field is populated. -/
structure RowSet where
  rowsField : List (List (String × GoValue))

/-- The `rowMap` loop body (part_001 lines 129-138): pair each column
name with its scanned value, converting `[]byte` cells to `string`. -/
def buildRowMap : List String → List DbValue → List (String × GoValue)
  | c :: cs, v :: vs =>
      (c, match v with
          | .vbytes s => GoValue.vStr s
          | .vany j => GoValue.vJson j) :: buildRowMap cs vs
  | _, _ => []

/-- `Connector.Query` (part_001 lines 94-149).  `variables` is
`request.Variables` (`none` = nil slice); `db` is the outcome of the
database query (`rows.Columns`/`Scan`/`Err` errors collapsed into
`Res.error`).  The body defaults a nil `variables` to one empty binding,
allocates `rowSets` with capacity `len(variableSets)` but length 0,
builds a single `rowSet` from the scanned rows, appends it once, and
returns. -/
def ConnectorQuery (reqVariables : Option (List QueryRequestVariablesElem))
    (db : Res DbResult) : Res (List RowSet) :=
  let variableSets : List QueryRequestVariablesElem :=
    match reqVariables with
    | none => [[]]
    | some vs => vs
  let rowSets : List RowSet := []
  match db with
  | .error e => .error e
  | .ok res =>
      let rowSet : RowSet := ⟨res.rows.map (fun r => buildRowMap res.cols r)⟩
      .ok (rowSets ++ [rowSet])

/- Order lemmas for the byte-wise key order. -/

theorem charListLt_asymm (a : List Char) :
    ∀ b, charListLt a b = true → charListLt b a = false := by
  induction a with
  | nil =>
      intro b h
      cases b with
      | nil => simp [charListLt] at h
      | cons y ys => simp [charListLt]
  | cons x xs ih =>
      intro b h
      cases b with
      | nil => simp [charListLt] at h
      | cons y ys =>
          simp only [charListLt] at h ⊢
          by_cases h1 : x.toNat < y.toNat
          · have h2 : ¬ y.toNat < x.toNat := by omega
            have h3 : ¬ y.toNat = x.toNat := by omega
            simp [h2, h3]
          · by_cases h2 : x.toNat = y.toNat
            · have hxs : charListLt xs ys = true := by
                simpa [h1, h2] using h
              have h3 : ¬ y.toNat < x.toNat := by omega
              have h4 : y.toNat = x.toNat := h2.symm
              simp [h3, h4, ih ys hxs]
            · simp [h1, h2] at h

theorem strLt_asymm (a b : String) (h : strLt a b = true) : strLt b a = false :=
  charListLt_asymm a.data b.data h

theorem strLe_of_strLt (a b : String) (h : strLt a b = true) : strLe a b = true := by
  simp [strLe, strLt_asymm a b h]

theorem insertEntry_head (k k2 : String) (v v2 : Json) (tl : JsonObj)
    (h : strLt k k2 = true) :
    insertEntry k v (.cons k2 v2 tl) = .cons k v (.cons k2 v2 tl) := by
  simp [insertEntry, strLe_of_strLt k k2 h]

/- `json.Marshal` of a decoded `any` tree in canonical form is the
identity. -/

mutual

theorem jsonMarshalAny_eq_self (j : Json) (h : jsonCanon j = true) :
    jsonMarshalAny j = j := by
  cases j with
  | jnull => rfl
  | jbool b => rfl
  | jnum n => rfl
  | jstr s => rfl
  | jarr l =>
      have := jsonMarshalAnyList_eq_self l (by simpa [jsonCanon] using h)
      simp [jsonMarshalAny, this]
  | jobj o =>
      have := jsonMarshalAnyObj_eq_self o (by simpa [jsonCanon] using h)
      simp [jsonMarshalAny, this]

theorem jsonMarshalAnyList_eq_self (l : JsonList) (h : jsonListCanon l = true) :
    jsonMarshalAnyList l = l := by
  cases l with
  | nil => rfl
  | cons hd tl =>
      simp only [jsonListCanon, Bool.and_eq_true] at h
      simp [jsonMarshalAnyList, jsonMarshalAny_eq_self hd h.1,
        jsonMarshalAnyList_eq_self tl h.2]

theorem jsonMarshalAnyObj_eq_self (o : JsonObj) (h : jsonObjCanon o = true) :
    jsonMarshalAnyObj o = o := by
  cases o with
  | nil => rfl
  | cons k v tl =>
      cases tl with
      | nil =>
          simp only [jsonObjCanon] at h
          simp [jsonMarshalAnyObj, insertEntry, jsonMarshalAny_eq_self v h]
      | cons k2 v2 tl2 =>
          simp only [jsonObjCanon, Bool.and_eq_true] at h
          have hrest : jsonMarshalAnyObj (.cons k2 v2 tl2) = .cons k2 v2 tl2 :=
            jsonMarshalAnyObj_eq_self (.cons k2 v2 tl2) h.2
          simp only [jsonMarshalAnyObj] at hrest ⊢
          rw [hrest, jsonMarshalAny_eq_self v h.1.2, insertEntry_head _ _ _ _ _ h.1.1]

end

/- Round-trip lemmas for the payload codecs. -/

theorem rt_pathElem (p : PathElement) :
    PathElementUnmarshalJSON (marshalPathElement p) = .ok p := rfl

theorem rt_pathList (ps : List PathElement) :
    decodePathList (jsonListOfList (ps.map marshalPathElement)) = .ok ps := by
  induction ps with
  | nil => rfl
  | cons p tl ih =>
      have h1 : decodePathList (jsonListOfList ((p :: tl).map marshalPathElement)) =
          (match decodePathList (jsonListOfList (tl.map marshalPathElement)) with
           | .error e => Res.error e
           | .ok rest => Res.ok (p :: rest)) := rfl
      rw [h1, ih]

theorem rt_relArg (a : RelArgT) (h : wfRelArgT a = true) :
    RelationshipArgumentUnmarshalJSON (marshalRelationshipArgument (RelArgTEncode a)) =
      .ok (RelArgTEncode a) := by
  cases a with
  | litArg v =>
      have h1 : RelationshipArgumentUnmarshalJSON
          (marshalRelationshipArgument (RelArgTEncode (.litArg v))) =
          .ok { rtype := "literal", name := "", value := jsonMarshalAny v } := rfl
      rw [h1, jsonMarshalAny_eq_self v h]
      rfl
  | varArg n =>
      have hn : ¬ n = "" := by simpa [wfRelArgT] using h
      have h1 : RelationshipArgumentUnmarshalJSON
          (marshalRelationshipArgument (RelArgTEncode (.varArg n))) =
          (if n = "" then
             Res.error ("field name in Argument is required for " ++ "variable" ++ " type")
           else Res.ok { rtype := "variable", name := n, value := .jnull }) := rfl
      rw [h1, if_neg hn]
      rfl
  | colArg n =>
      have hn : ¬ n = "" := by simpa [wfRelArgT] using h
      have h1 : RelationshipArgumentUnmarshalJSON
          (marshalRelationshipArgument (RelArgTEncode (.colArg n))) =
          (if n = "" then
             Res.error ("field name in Argument is required for " ++ "column" ++ " type")
           else Res.ok { rtype := "column", name := n, value := .jnull }) := rfl
      rw [h1, if_neg hn]
      rfl

/-- The marshalled form of a strictly-sorted argument map, entry by entry
in order. -/
def relArgsObjInOrder : List (String × RelationshipArgument) → JsonObj
  | [] => .nil
  | (k, a) :: tl => .cons k (marshalRelationshipArgument a) (relArgsObjInOrder tl)

theorem rt_args : ∀ l, wfArgsList l = true →
    marshalRelArgs (encodeArgsList l) = relArgsObjInOrder (encodeArgsList l) ∧
    decodeRelArgsObj (relArgsObjInOrder (encodeArgsList l)) = .ok (encodeArgsList l)
  | [], _ => ⟨rfl, rfl⟩
  | [(k, a)], h => by
      have ha : wfRelArgT a = true := by simpa [wfArgsList] using h
      constructor
      · rfl
      · have h1 : decodeRelArgsObj (relArgsObjInOrder (encodeArgsList [(k, a)])) =
            (match RelationshipArgumentUnmarshalJSON
                (marshalRelationshipArgument (RelArgTEncode a)) with
             | .error e => Res.error e
             | .ok a2 => Res.ok [(k, a2)]) := rfl
        rw [h1, rt_relArg a ha]
        rfl
  | (k, a) :: (k2, a2) :: tl, h => by
      have hparts : strLt k k2 = true ∧ wfRelArgT a = true ∧
          wfArgsList ((k2, a2) :: tl) = true := by
        simpa [wfArgsList, Bool.and_eq_true, and_assoc] using h
      have ih := rt_args ((k2, a2) :: tl) hparts.2.2
      have hm : marshalRelArgs (encodeArgsList ((k, a) :: (k2, a2) :: tl)) =
          relArgsObjInOrder (encodeArgsList ((k, a) :: (k2, a2) :: tl)) := by
        show insertEntry k (marshalRelationshipArgument (RelArgTEncode a))
            (marshalRelArgs (encodeArgsList ((k2, a2) :: tl))) = _
        rw [ih.1]
        exact insertEntry_head _ _ _ _ _ hparts.1
      refine ⟨hm, ?_⟩
      have h1 : decodeRelArgsObj (relArgsObjInOrder (encodeArgsList ((k, a) :: (k2, a2) :: tl))) =
          (match RelationshipArgumentUnmarshalJSON
              (marshalRelationshipArgument (RelArgTEncode a)) with
           | .error e => Res.error e
           | .ok a3 =>
               match decodeRelArgsObj (relArgsObjInOrder (encodeArgsList ((k2, a2) :: tl))) with
               | .error e => Res.error e
               | .ok rest => Res.ok ((k, a3) :: rest)) := rfl
      rw [h1, rt_relArg a hparts.2.1, ih.2]
      rfl

theorem rt_argsJson (l : List (String × RelArgT)) (h : wfArgsList l = true) :
    decodeRelArgsJson (.jobj (marshalRelArgs (encodeArgsList l))) = .ok (encodeArgsList l) := by
  rw [show decodeRelArgsJson (.jobj (marshalRelArgs (encodeArgsList l))) =
    decodeRelArgsObj (marshalRelArgs (encodeArgsList l)) from rfl, (rt_args l h).1]
  exact (rt_args l h).2

theorem rt_CT (ct : ComparisonTarget) (h : wfCT ct = true) :
    ComparisonTargetUnmarshalJSON (marshalComparisonTarget ct) = .ok ct := by
  have hp : ParseComparisonTargetType ct.ctype = .ok ct.ctype := by
    unfold ParseComparisonTargetType
    rw [if_pos (of_decide_eq_true h)]
  obtain ⟨ctype, name, path⟩ := ct
  cases path with
  | nil =>
      have h1 : ComparisonTargetUnmarshalJSON
          (marshalComparisonTarget ⟨ctype, name, []⟩) =
          (match ParseComparisonTargetType ctype with
           | .error e => Res.error e
           | .ok ty => Res.ok ⟨ty, name, []⟩) := rfl
      rw [h1, hp]
  | cons p ps =>
      have h1 : ComparisonTargetUnmarshalJSON
          (marshalComparisonTarget ⟨ctype, name, p :: ps⟩) =
          (match ParseComparisonTargetType ctype with
           | .error e => Res.error e
           | .ok ty =>
               match decodePathList (jsonListOfList ((p :: ps).map marshalPathElement)) with
               | .error e => Res.error e
               | .ok pl => Res.ok ⟨ty, name, pl⟩) := rfl
      rw [h1, hp, rt_pathList]

theorem rt_BCO (b : BinaryComparisonOperator) (h : wfBCO b = true) :
    BinaryComparisonOperatorUnmarshalJSON (marshalBinaryComparisonOperator b) = .ok b := by
  have hp : ParseBinaryComparisonOperatorType b.btype = .ok b.btype := by
    unfold ParseBinaryComparisonOperatorType Contains
    have : (["equal", "other"].contains b.btype) = true := by
      have := of_decide_eq_true (by simpa [wfBCO] using h :
        decide (b.btype = "equal" ∨ b.btype = "other") = true)
      rcases this with h1 | h1 <;> simp [h1]
    rw [if_pos this]
  obtain ⟨btype, name⟩ := b
  by_cases hn : name = ""
  · subst hn
    have h1 : BinaryComparisonOperatorUnmarshalJSON
        (marshalBinaryComparisonOperator ⟨btype, ""⟩) =
        (match ParseBinaryComparisonOperatorType btype with
         | .error e => Res.error e
         | .ok ty => Res.ok ⟨ty, ""⟩) := rfl
    rw [h1, hp]
  · have hm : marshalBinaryComparisonOperator ⟨btype, name⟩ =
        .jobj (.cons "type" (.jstr btype) (.cons "name" (.jstr name) .nil)) := by
      simp [marshalBinaryComparisonOperator, hn]
    have h1 : BinaryComparisonOperatorUnmarshalJSON
        (.jobj (.cons "type" (.jstr btype) (.cons "name" (.jstr name) .nil))) =
        (match ParseBinaryComparisonOperatorType btype with
         | .error e => Res.error e
         | .ok ty => Res.ok ⟨ty, name⟩) := rfl
    rw [hm, h1, hp]

theorem rt_CV (cv : CVT) (h : wfCVT cv = true) :
    ComparisonValueUnmarshalJSON (.jobj (marshalGoMap (CVTEncode cv))) = .ok (CVTEncode cv) := by
  cases cv with
  | colV ct =>
      have h1 : ComparisonValueUnmarshalJSON (.jobj (marshalGoMap (CVTEncode (.colV ct)))) =
          (match ComparisonTargetUnmarshalJSON (marshalComparisonTarget ct) with
           | .error e => Res.error ("field column in ComparisonValue: " ++ e)
           | .ok ct2 => Res.ok (.cons "type" (.vCVType "column")
               (.cons "column" (.vCT ct2) .nil))) := rfl
      rw [h1, rt_CT ct (by simpa [wfCVT] using h)]
      rfl
  | scalarV v =>
      have h1 : ComparisonValueUnmarshalJSON (.jobj (marshalGoMap (CVTEncode (.scalarV v)))) =
          .ok (.cons "type" (.vCVType "scalar")
            (.cons "value" (.vJson (jsonMarshalAny v)) .nil)) := rfl
      rw [h1, jsonMarshalAny_eq_self v (by simpa [wfCVT] using h)]
      rfl
  | varV n => rfl

theorem rt_EIC (e : EICT) (h : wfEICT e = true) :
    ExistsInCollectionUnmarshalJSON (.jobj (marshalGoMap (EICTEncode e))) = .ok (EICTEncode e) := by
  cases e with
  | related rel args =>
      have h1 : ExistsInCollectionUnmarshalJSON
          (.jobj (marshalGoMap (EICTEncode (.related rel args)))) =
          (match decodeRelArgsJson (.jobj (marshalRelArgs (encodeArgsList args))) with
           | .error e => Res.error ("field arguments in ExistsInCollection: " ++ e)
           | .ok args2 => Res.ok (.cons "type" (.vEICType "related")
               (.cons "relationship" (.vStr rel)
                 (.cons "arguments" (.vRelArgs args2) .nil)))) := rfl
      rw [h1, rt_argsJson args (by simpa [wfEICT] using h)]
      rfl
  | unrelated coll args =>
      have h1 : ExistsInCollectionUnmarshalJSON
          (.jobj (marshalGoMap (EICTEncode (.unrelated coll args)))) =
          (match decodeRelArgsJson (.jobj (marshalRelArgs (encodeArgsList args))) with
           | .error e => Res.error ("field arguments in ExistsInCollection: " ++ e)
           | .ok args2 => Res.ok (.cons "type" (.vEICType "unrelated")
               (.cons "collection" (.vStr coll)
                 (.cons "arguments" (.vRelArgs args2) .nil)))) := rfl
      rw [h1, rt_argsJson args (by simpa [wfEICT] using h)]
      rfl

theorem rt_Agg (a : AggT) :
    AggregateUnmarshalJSON (.jobj (marshalGoMap (AggTEncode a))) = .ok (AggTEncode a) := by
  cases a <;> rfl

theorem rt_OBT (ob : OBTT) :
    OrderByTargetUnmarshalJSON (.jobj (marshalGoMap (OBTTEncode ob))) = .ok (OBTTEncode ob) := by
  cases ob with
  | column c p =>
      have h1 : OrderByTargetUnmarshalJSON (.jobj (marshalGoMap (OBTTEncode (.column c p)))) =
          (match decodePathList (jsonListOfList (p.map marshalPathElement)) with
           | .error e => Res.error ("field path in OrderByTarget: " ++ e)
           | .ok pl => Res.ok (.cons "type" (.vOBTType "column")
               (.cons "column" (.vStr c) (.cons "path" (.vPath pl) .nil)))) := rfl
      rw [h1, rt_pathList]
      rfl
  | singleColumnAggregate c f p =>
      have h1 : OrderByTargetUnmarshalJSON
          (.jobj (marshalGoMap (OBTTEncode (.singleColumnAggregate c f p)))) =
          (match decodePathList (jsonListOfList (p.map marshalPathElement)) with
           | .error e => Res.error ("field path in OrderByTarget: " ++ e)
           | .ok pl => Res.ok (.cons "type" (.vOBTType "single_column_aggregate")
               (.cons "column" (.vStr c)
                 (.cons "function" (.vStr f) (.cons "path" (.vPath pl) .nil))))) := rfl
      rw [h1, rt_pathList]
      rfl
  | starCountAggregate p =>
      have h1 : OrderByTargetUnmarshalJSON
          (.jobj (marshalGoMap (OBTTEncode (.starCountAggregate p)))) =
          (match decodePathList (jsonListOfList (p.map marshalPathElement)) with
           | .error e => Res.error ("field path in OrderByTarget: " ++ e)
           | .ok pl => Res.ok (.cons "type" (.vOBTType "star_count_aggregate")
               (.cons "path" (.vPath pl) .nil))) := rfl
      rw [h1, rt_pathList]
      rfl

theorem rt_OBElems (l : List OBElemT) :
    decodeOrderByElemList (marshalOrderByElems (OBElemsEncode l)) = .ok (OBElemsEncode l) := by
  induction l with
  | nil => rfl
  | cons e tl ih =>
      have h1 : decodeOrderByElemList (marshalOrderByElems (OBElemsEncode (e :: tl))) =
          (match (match OrderByTargetUnmarshalJSON (.jobj (marshalGoMap (OBTTEncode e.target))) with
                  | .error e2 => Res.error e2
                  | .ok t => Res.ok (t, e.dir)) with
           | .error e2 => Res.error e2
           | .ok (t, dir) =>
               match decodeOrderByElemList (marshalOrderByElems (OBElemsEncode tl)) with
               | .error e2 => Res.error e2
               | .ok rest => Res.ok (.cons t dir rest)) := rfl
      rw [h1, rt_OBT, ih]
      rfl

theorem rt_CVList (vs : List CVT) (h : wfCVTList vs = true) :
    decodeCVList (marshalGoMapList (CVTListEncode vs)) = .ok (CVTListEncode vs) := by
  induction vs with
  | nil => rfl
  | cons cv tl ih =>
      have hp : wfCVT cv = true ∧ wfCVTList tl = true := by
        simpa [wfCVTList, Bool.and_eq_true] using h
      have h1 : decodeCVList (marshalGoMapList (CVTListEncode (cv :: tl))) =
          (match ComparisonValueUnmarshalJSON (.jobj (marshalGoMap (CVTEncode cv))) with
           | .error e => Res.error e
           | .ok m =>
               match decodeCVList (marshalGoMapList (CVTListEncode tl)) with
               | .error e => Res.error e
               | .ok rest => Res.ok (.cons m rest)) := rfl
      rw [h1, rt_CV cv hp.1, ih hp.2]
      rfl

mutual

theorem rt_Expr (e : ExprT) (h : wfExprT e = true) :
    ExpressionUnmarshalJSON (.jobj (marshalGoMap (ExprTEncode e))) = .ok (ExprTEncode e) := by
  cases e with
  | andE l =>
      have h1 : ExpressionUnmarshalJSON (.jobj (marshalGoMap (ExprTEncode (.andE l)))) =
          (match decodeExpressionList (marshalGoMapList (ExprTListEncode l)) with
           | .error e => Res.error ("field expressions in Expression: " ++ e)
           | .ok es => Res.ok (.cons "type" (.vExprType "and")
               (.cons "expressions" (.vExprList es) .nil))) := rfl
      rw [h1, rt_ExprList l (by simpa [wfExprT] using h)]
      rfl
  | orE l =>
      have h1 : ExpressionUnmarshalJSON (.jobj (marshalGoMap (ExprTEncode (.orE l)))) =
          (match decodeExpressionList (marshalGoMapList (ExprTListEncode l)) with
           | .error e => Res.error ("field expressions in Expression: " ++ e)
           | .ok es => Res.ok (.cons "type" (.vExprType "or")
               (.cons "expressions" (.vExprList es) .nil))) := rfl
      rw [h1, rt_ExprList l (by simpa [wfExprT] using h)]
      rfl
  | notE inner =>
      have h1 : ExpressionUnmarshalJSON (.jobj (marshalGoMap (ExprTEncode (.notE inner)))) =
          (match ExpressionUnmarshalJSON (.jobj (marshalGoMap (ExprTEncode inner))) with
           | .error e => Res.error ("field expression in Expression: " ++ e)
           | .ok m => Res.ok (.cons "type" (.vExprType "not")
               (.cons "expression" (.vExprMap m) .nil))) := rfl
      rw [h1, rt_Expr inner (by simpa [wfExprT] using h)]
      rfl
  | unaryE op ct =>
      have h1 : ExpressionUnmarshalJSON (.jobj (marshalGoMap (ExprTEncode (.unaryE op ct)))) =
          (match ComparisonTargetUnmarshalJSON (marshalComparisonTarget ct) with
           | .error e => Res.error ("field column in Expression: " ++ e)
           | .ok ct2 => Res.ok (.cons "type" (.vExprType "unary_comparison_operator")
               (.cons "operator" (.vUCO op) (.cons "column" (.vCT ct2) .nil)))) := rfl
      rw [h1, rt_CT ct (by simpa [wfExprT] using h)]
      rfl
  | binaryE op ct v =>
      have hp : wfBCO op = true ∧ wfCT ct = true ∧ wfCVT v = true := by
        simpa [wfExprT, Bool.and_eq_true, and_assoc] using h
      have h1 : ExpressionUnmarshalJSON (.jobj (marshalGoMap (ExprTEncode (.binaryE op ct v)))) =
          (match BinaryComparisonOperatorUnmarshalJSON (marshalBinaryComparisonOperator op) with
           | .error e => Res.error ("field operator in Expression: " ++ e)
           | .ok op2 =>
               match ComparisonTargetUnmarshalJSON (marshalComparisonTarget ct) with
               | .error e => Res.error ("field column in Expression: " ++ e)
               | .ok ct2 =>
                   match ComparisonValueUnmarshalJSON (.jobj (marshalGoMap (CVTEncode v))) with
                   | .error e => Res.error ("field value in Expression: " ++ e)
                   | .ok cv2 =>
                       Res.ok (.cons "type" (.vExprType "binary_comparison_operator")
                         (.cons "operator" (.vBCO op2)
                           (.cons "column" (.vCT ct2)
                             (.cons "value" (.vCVMap cv2) .nil))))) := rfl
      rw [h1, rt_BCO op hp.1, rt_CT ct hp.2.1, rt_CV v hp.2.2]
      rfl
  | binaryArrE op ct vs =>
      have hp : wfCT ct = true ∧ wfCVTList vs = true := by
        simpa [wfExprT, Bool.and_eq_true] using h
      have h1 : ExpressionUnmarshalJSON
          (.jobj (marshalGoMap (ExprTEncode (.binaryArrE op ct vs)))) =
          (match ComparisonTargetUnmarshalJSON (marshalComparisonTarget ct) with
           | .error e => Res.error ("field column in Expression: " ++ e)
           | .ok ct2 =>
               match decodeCVList (marshalGoMapList (CVTListEncode vs)) with
               | .error e => Res.error ("field values in Expression: " ++ e)
               | .ok cvs2 =>
                   Res.ok (.cons "type" (.vExprType "binary_array_comparison_operator")
                     (.cons "operator" (.vBACO op)
                       (.cons "column" (.vCT ct2)
                         (.cons "values" (.vCVList cvs2) .nil))))) := rfl
      rw [h1, rt_CT ct hp.1, rt_CVList vs hp.2]
      rfl
  | existsE w ic =>
      have hp : wfExprT w = true ∧ wfEICT ic = true := by
        simpa [wfExprT, Bool.and_eq_true] using h
      have h1 : ExpressionUnmarshalJSON (.jobj (marshalGoMap (ExprTEncode (.existsE w ic)))) =
          (match ExpressionUnmarshalJSON (.jobj (marshalGoMap (ExprTEncode w))) with
           | .error e => Res.error ("field where in Expression: " ++ e)
           | .ok w2 =>
               match ExistsInCollectionUnmarshalJSON (.jobj (marshalGoMap (EICTEncode ic))) with
               | .error e => Res.error ("field in_collection in Expression: " ++ e)
               | .ok ic2 =>
                   Res.ok (.cons "type" (.vExprType "exists")
                     (.cons "where" (.vExprMap w2)
                       (.cons "in_collection" (.vEICMap ic2) .nil)))) := rfl
      rw [h1, rt_Expr w hp.1, rt_EIC ic hp.2]
      rfl

theorem rt_ExprList (l : ExprTList) (h : wfExprTList l = true) :
    decodeExpressionList (marshalGoMapList (ExprTListEncode l)) = .ok (ExprTListEncode l) := by
  cases l with
  | nil => rfl
  | cons hd tl =>
      have hp : wfExprT hd = true ∧ wfExprTList tl = true := by
        simpa [wfExprTList, Bool.and_eq_true] using h
      have h1 : decodeExpressionList (marshalGoMapList (ExprTListEncode (.cons hd tl))) =
          (match ExpressionUnmarshalJSON (.jobj (marshalGoMap (ExprTEncode hd))) with
           | .error e => Res.error e
           | .ok m =>
               match decodeExpressionList (marshalGoMapList (ExprTListEncode tl)) with
               | .error e => Res.error e
               | .ok rest => Res.ok (.cons m rest)) := rfl
      rw [h1, rt_Expr hd hp.1, rt_ExprList tl hp.2]
      rfl

end

theorem rt_QueryVal (F : Option FieldsMap) (L O2 : Option Int) (OB : Option OrderByElems)
    (P : Option GoMap)
    (hF : ∀ fm, F = some fm → decodeFieldsObj (marshalFieldsMap fm) = .ok fm)
    (hOB : ∀ es, OB = some es → decodeOrderByElemList (marshalOrderByElems es) = .ok es)
    (hP : ∀ p, P = some p → ExpressionUnmarshalJSON (.jobj (marshalGoMap p)) = .ok p) :
    QueryUnmarshalJSON (marshalQuery (.mk F L O2 OB P)) = .ok (.mk F L O2 OB P) := by
  cases F <;> cases L <;> cases O2 <;> cases OB <;> cases P <;>
    simp [marshalQuery, optEntry, QueryUnmarshalJSON, scanQueryFields, jLookup,
      decodeOptIntJson, decodeOrderByJson, hF, hOB, hP]

/-- The marshalled form of a strictly-sorted fields map, entry by entry. -/
def fieldsObjInOrder : FieldsMap → JsonObj
  | .nil => .nil
  | .cons k f tl => .cons k (.jobj (marshalGoMap f)) (fieldsObjInOrder tl)

theorem wfQueryT_parts (fields : FieldsOptT) (limit offset : Option Int)
    (ob : Option (List OBElemT)) (pred : Option ExprT)
    (h : wfQueryT (.mk fields limit offset ob pred) = true) :
    (∀ ft, fields = .fsome ft → wfFieldsT ft = true) ∧
    (∀ p, pred = some p → wfExprT p = true) := by
  have hb : (wfFieldsOpt fields && wfPredOpt pred) = true := h
  rw [Bool.and_eq_true] at hb
  constructor
  · intro ft hf
    subst hf
    cases ft with
    | nil => simp [wfFieldsOpt] at hb
    | cons k f tl => exact hb.1
  · intro p hp
    subst hp
    exact hb.2

theorem rt_FQ_aux (n : Nat) :
    (∀ f : FieldT, sizeOf f ≤ n → wfFieldT f = true →
        FieldUnmarshalJSON (.jobj (marshalGoMap (FieldTEncode f))) = .ok (FieldTEncode f)) ∧
    (∀ q : QueryT, sizeOf q ≤ n → wfQueryT q = true →
        QueryUnmarshalJSON (marshalQuery (QueryTEncode q)) = .ok (QueryTEncode q)) ∧
    (∀ ft : FieldsT, sizeOf ft ≤ n → wfFieldsT ft = true →
        marshalFieldsMap (FieldsTEncode ft) = fieldsObjInOrder (FieldsTEncode ft) ∧
        decodeFieldsObj (fieldsObjInOrder (FieldsTEncode ft)) = .ok (FieldsTEncode ft)) := by
  induction n using Nat.strong_induction_on with
  | _ n ih =>
  refine ⟨?_, ?_, ?_⟩
  · intro f hsz h
    cases f with
    | column c => rfl
    | relationship rel q args =>
        have hp : wfQueryT q = true ∧ wfArgsList args = true := by
          simpa [wfFieldT, Bool.and_eq_true] using h
        have hszq : sizeOf q < n := by
          have hs : sizeOf (FieldT.relationship rel q args) =
              1 + sizeOf rel + sizeOf q + sizeOf args := rfl
          omega
        have hq := (ih (sizeOf q) hszq).2.1 q le_rfl hp.1
        have h1 : FieldUnmarshalJSON
            (.jobj (marshalGoMap (FieldTEncode (.relationship rel q args)))) =
            (match QueryUnmarshalJSON (marshalQuery (QueryTEncode q)) with
             | .error e => Res.error ("field query in Field: " ++ e)
             | .ok q2 =>
                 match decodeRelArgsJson (.jobj (marshalRelArgs (encodeArgsList args))) with
                 | .error e => Res.error ("field arguments in Field: " ++ e)
                 | .ok args2 =>
                     Res.ok (.cons "type" (.vFieldType "relationship")
                       (.cons "relationship" (.vStr rel)
                         (.cons "query" (.vQuery q2)
                           (.cons "arguments" (.vRelArgs args2) .nil))))) := rfl
        rw [h1, hq, rt_argsJson args hp.2]
        rfl
  · intro q hsz h
    obtain ⟨fields, limit, offset, ob, pred⟩ := q
    refine rt_QueryVal _ _ _ _ _ ?_ ?_ ?_
    · intro fm hfm
      cases fields with
      | fnone => exact absurd hfm (by simp [FieldsOptTEncode])
      | fsome ft =>
          have hfe : fm = FieldsTEncode ft := by
            simp only [FieldsOptTEncode, Option.some.injEq] at hfm
            exact hfm.symm
          subst hfe
          have hwft : wfFieldsT ft = true :=
            (wfQueryT_parts (.fsome ft) limit offset ob pred h).1 ft rfl
          have hszf : sizeOf ft < n := by
            have hs : sizeOf (QueryT.mk (.fsome ft) limit offset ob pred) =
                1 + (1 + sizeOf ft) + sizeOf limit + sizeOf offset + sizeOf ob + sizeOf pred := by
              simp [sizeOf]
              rfl
            omega
          have hrec := (ih (sizeOf ft) hszf).2.2 ft le_rfl hwft
          rw [hrec.1]
          exact hrec.2
    · intro es hes
      cases ob with
      | none => exact absurd hes (by simp)
      | some l =>
          have hoe : es = OBElemsEncode l := by cases hes; rfl
          subst hoe
          exact rt_OBElems l
    · intro p hps
      cases pred with
      | none => exact absurd hps (by simp)
      | some p2 =>
          have hpe : p = ExprTEncode p2 := by cases hps; rfl
          subst hpe
          exact rt_Expr p2 ((wfQueryT_parts fields limit offset ob (some p2) h).2 p2 rfl)
  · intro ft hsz h
    cases ft with
    | nil => exact ⟨rfl, rfl⟩
    | cons k f tl =>
        have hszf : sizeOf f < n := by
          have hs : sizeOf (FieldsT.cons k f tl) = 1 + sizeOf k + sizeOf f + sizeOf tl := rfl
          omega
        cases tl with
        | nil =>
            have hf : wfFieldT f = true := by simpa [wfFieldsT] using h
            have hfd := (ih (sizeOf f) hszf).1 f le_rfl hf
            constructor
            · rfl
            · have h1 : decodeFieldsObj (fieldsObjInOrder (FieldsTEncode (.cons k f .nil))) =
                  (match FieldUnmarshalJSON (.jobj (marshalGoMap (FieldTEncode f))) with
                   | .error e => Res.error e
                   | .ok f2 => Res.ok (.cons k f2 .nil)) := rfl
              rw [h1, hfd]
              rfl
        | cons k2 f2 tl2 =>
            have hparts : strLt k k2 = true ∧ wfFieldT f = true ∧
                wfFieldsT (.cons k2 f2 tl2) = true := by
              simpa [wfFieldsT, Bool.and_eq_true, and_assoc] using h
            have hszt : sizeOf (FieldsT.cons k2 f2 tl2) < n := by
              have hs : sizeOf (FieldsT.cons k f (.cons k2 f2 tl2)) =
                  1 + sizeOf k + sizeOf f + sizeOf (FieldsT.cons k2 f2 tl2) := rfl
              omega
            have hfd := (ih (sizeOf f) hszf).1 f le_rfl hparts.2.1
            have iht := (ih (sizeOf (FieldsT.cons k2 f2 tl2)) hszt).2.2
              (FieldsT.cons k2 f2 tl2) le_rfl hparts.2.2
            have hm : marshalFieldsMap (FieldsTEncode (.cons k f (.cons k2 f2 tl2))) =
                fieldsObjInOrder (FieldsTEncode (.cons k f (.cons k2 f2 tl2))) := by
              show insertEntry k (.jobj (marshalGoMap (FieldTEncode f)))
                  (marshalFieldsMap (FieldsTEncode (.cons k2 f2 tl2))) = _
              rw [iht.1]
              exact insertEntry_head _ _ _ _ _ hparts.1
            refine ⟨hm, ?_⟩
            have h1 : decodeFieldsObj
                (fieldsObjInOrder (FieldsTEncode (.cons k f (.cons k2 f2 tl2)))) =
                (match FieldUnmarshalJSON (.jobj (marshalGoMap (FieldTEncode f))) with
                 | .error e => Res.error e
                 | .ok fv =>
                     match decodeFieldsObj (fieldsObjInOrder (FieldsTEncode (.cons k2 f2 tl2))) with
                     | .error e => Res.error e
                     | .ok rest => Res.ok (.cons k fv rest)) := rfl
            rw [h1, hfd, iht.2]
            rfl

theorem rt_Field (f : FieldT) (h : wfFieldT f = true) :
    FieldUnmarshalJSON (.jobj (marshalGoMap (FieldTEncode f))) = .ok (FieldTEncode f) :=
  (rt_FQ_aux (sizeOf f)).1 f le_rfl h

theorem rt_Query (q : QueryT) (h : wfQueryT q = true) :
    QueryUnmarshalJSON (marshalQuery (QueryTEncode q)) = .ok (QueryTEncode q) :=
  (rt_FQ_aux (sizeOf q)).2.1 q le_rfl h

theorem rt_Type (t : TypeT) :
    TypeUnmarshalJSON (.jobj (marshalGoMap (TypeTEncode t))) = .ok (TypeTEncode t) := by
  induction t with
  | named n => rfl
  | nullable u ih =>
      have h1 : TypeUnmarshalJSON (.jobj (marshalGoMap (TypeTEncode (.nullable u)))) =
          (match TypeUnmarshalJSON (.jobj (marshalGoMap (TypeTEncode u))) with
           | .error e => Res.error ("field underlying_type in Type: " ++ e)
           | .ok v => Res.ok (.cons "type" (.vTypeEnum "nullable")
               (.cons "underlying_type" (.vTypeMap v) .nil))) := rfl
      rw [h1, ih]
      rfl
  | array e ih =>
      have h1 : TypeUnmarshalJSON (.jobj (marshalGoMap (TypeTEncode (.array e)))) =
          (match TypeUnmarshalJSON (.jobj (marshalGoMap (TypeTEncode e))) with
           | .error e2 => Res.error ("field element_type in Type: " ++ e2)
           | .ok v => Res.ok (.cons "type" (.vTypeEnum "array")
               (.cons "element_type" (.vTypeMap v) .nil))) := rfl
      rw [h1, ih]
      rfl

/-- C1: For every Wire Type Model entity variant (`Type`, `Field`,
`ComparisonValue`, `Expression`, `Aggregate`, `OrderByTarget`,
`ExistsInCollection`) and every valid construction `x` of that variant,
decoding (`UnmarshalJSON`) the JSON serialization of `Encode x` yields a
value structurally equal to `x`: the same discriminant tag, the same
payload values, and no keys for variant-inapplicable fields — including
nested `Nullable(Nullable(Named "Int"))` and empty `and`/`or` expression
lists.  Valid constructions are enumerated by the model types `TypeT`,
`FieldT`, `CVT`, `ExprT`, `AggT`, `OBTT`, `EICT` (recursive payloads are
themselves encoded valid constructions) with their well-formedness side
conditions `wf...`. -/
theorem C1_wire_roundtrip :
    (∀ t : TypeT,
        TypeUnmarshalJSON (.jobj (marshalGoMap (TypeTEncode t))) = .ok (TypeTEncode t)) ∧
    (∀ f : FieldT, wfFieldT f = true →
        FieldUnmarshalJSON (.jobj (marshalGoMap (FieldTEncode f))) = .ok (FieldTEncode f)) ∧
    (∀ cv : CVT, wfCVT cv = true →
        ComparisonValueUnmarshalJSON (.jobj (marshalGoMap (CVTEncode cv))) = .ok (CVTEncode cv)) ∧
    (∀ e : ExprT, wfExprT e = true →
        ExpressionUnmarshalJSON (.jobj (marshalGoMap (ExprTEncode e))) = .ok (ExprTEncode e)) ∧
    (∀ a : AggT,
        AggregateUnmarshalJSON (.jobj (marshalGoMap (AggTEncode a))) = .ok (AggTEncode a)) ∧
    (∀ ob : OBTT,
        OrderByTargetUnmarshalJSON (.jobj (marshalGoMap (OBTTEncode ob))) = .ok (OBTTEncode ob)) ∧
    (∀ ei : EICT, wfEICT ei = true →
        ExistsInCollectionUnmarshalJSON (.jobj (marshalGoMap (EICTEncode ei))) =
          .ok (EICTEncode ei)) :=
  ⟨rt_Type, rt_Field, rt_CV, rt_Expr, rt_Agg, rt_OBT, rt_EIC⟩

/-- Witness for C1 at concrete valid constructions: the doubly-nested
nullable type, empty `and`/`or` expression lists, a relationship field
with a sub-query, and one construction of each remaining union. -/
theorem C1_wire_roundtrip_witness :
    (TypeUnmarshalJSON (.jobj (marshalGoMap
        (TypeTEncode (.nullable (.nullable (.named "Int")))))) =
      .ok (TypeTEncode (.nullable (.nullable (.named "Int"))))) ∧
    (ExpressionUnmarshalJSON (.jobj (marshalGoMap (ExprTEncode (.andE .nil)))) =
      .ok (ExprTEncode (.andE .nil))) ∧
    (ExpressionUnmarshalJSON (.jobj (marshalGoMap (ExprTEncode (.orE .nil)))) =
      .ok (ExprTEncode (.orE .nil))) ∧
    (FieldUnmarshalJSON (.jobj (marshalGoMap (FieldTEncode
        (.relationship "author" (.mk (.fsome (.cons "id" (.column "id") .nil))
          (some 10) none none (some (.notE (.andE .nil))))
          [("aid", .varArg "v")])))) =
      .ok (FieldTEncode (.relationship "author" (.mk (.fsome (.cons "id" (.column "id") .nil))
          (some 10) none none (some (.notE (.andE .nil))))
          [("aid", .varArg "v")]))) ∧
    (ComparisonValueUnmarshalJSON (.jobj (marshalGoMap (CVTEncode (.scalarV (.jnum 5))))) =
      .ok (CVTEncode (.scalarV (.jnum 5)))) ∧
    (AggregateUnmarshalJSON (.jobj (marshalGoMap (AggTEncode (.columnCount "c" true)))) =
      .ok (AggTEncode (.columnCount "c" true))) ∧
    (OrderByTargetUnmarshalJSON (.jobj (marshalGoMap (OBTTEncode
        (.singleColumnAggregate "c" "sum" [⟨"rel"⟩])))) =
      .ok (OBTTEncode (.singleColumnAggregate "c" "sum" [⟨"rel"⟩]))) ∧
    (ExistsInCollectionUnmarshalJSON (.jobj (marshalGoMap (EICTEncode
        (.unrelated "articles" [("x", .litArg (.jstr "1"))])))) =
      .ok (EICTEncode (.unrelated "articles" [("x", .litArg (.jstr "1"))]))) :=
  ⟨C1_wire_roundtrip.1 _,
   C1_wire_roundtrip.2.2.2.1 _ rfl,
   C1_wire_roundtrip.2.2.2.1 _ rfl,
   C1_wire_roundtrip.2.1 _ rfl,
   C1_wire_roundtrip.2.2.1 _ rfl,
   C1_wire_roundtrip.2.2.2.2.1 _,
   C1_wire_roundtrip.2.2.2.2.2.1 _,
   C1_wire_roundtrip.2.2.2.2.2.2 _ rfl⟩

/- Discriminant rejection, one lemma per union: decoding an object whose
`"type"` key is absent, or bound to a non-string JSON value, or bound to a
string outside the enumerated tags, fails. -/

theorem disc_Type (o : JsonObj) :
    (jLookup "type" o = none → (TypeUnmarshalJSON (.jobj o)).isErr = true) ∧
    (∀ v, jLookup "type" o = some v → (∀ s, v ≠ .jstr s) →
        (TypeUnmarshalJSON (.jobj o)).isErr = true) ∧
    (∀ s, jLookup "type" o = some (.jstr s) → (ParseTypeEnum s).isErr = true →
        (TypeUnmarshalJSON (.jobj o)).isErr = true) := by
  refine ⟨?_, ?_, ?_⟩
  · intro h
    simp [TypeUnmarshalJSON, h, Res.isErr]
  · intro v hv hns
    cases v with
    | jstr s => exact absurd rfl (hns s)
    | jnull => simp [TypeUnmarshalJSON, hv, unmarshalString, ParseTypeEnum, Contains, Res.isErr]
    | jbool b => simp [TypeUnmarshalJSON, hv, unmarshalString, Res.isErr]
    | jnum n => simp [TypeUnmarshalJSON, hv, unmarshalString, Res.isErr]
    | jarr l => simp [TypeUnmarshalJSON, hv, unmarshalString, Res.isErr]
    | jobj o2 => simp [TypeUnmarshalJSON, hv, unmarshalString, Res.isErr]
  · intro s hv hp
    cases hps : ParseTypeEnum s with
    | ok t => rw [hps] at hp; simp [Res.isErr] at hp
    | error e => simp [TypeUnmarshalJSON, hv, unmarshalString, hps, Res.isErr]

theorem disc_Expression (o : JsonObj) :
    (jLookup "type" o = none → (ExpressionUnmarshalJSON (.jobj o)).isErr = true) ∧
    (∀ v, jLookup "type" o = some v → (∀ s, v ≠ .jstr s) →
        (ExpressionUnmarshalJSON (.jobj o)).isErr = true) ∧
    (∀ s, jLookup "type" o = some (.jstr s) → (ParseExpressionType s).isErr = true →
        (ExpressionUnmarshalJSON (.jobj o)).isErr = true) := by
  refine ⟨?_, ?_, ?_⟩
  · intro h
    simp [ExpressionUnmarshalJSON, h, Res.isErr]
  · intro v hv hns
    cases v with
    | jstr s => exact absurd rfl (hns s)
    | jnull =>
        simp [ExpressionUnmarshalJSON, hv, unmarshalString, ParseExpressionType, Contains,
          Res.isErr]
    | jbool b => simp [ExpressionUnmarshalJSON, hv, unmarshalString, Res.isErr]
    | jnum n => simp [ExpressionUnmarshalJSON, hv, unmarshalString, Res.isErr]
    | jarr l => simp [ExpressionUnmarshalJSON, hv, unmarshalString, Res.isErr]
    | jobj o2 => simp [ExpressionUnmarshalJSON, hv, unmarshalString, Res.isErr]
  · intro s hv hp
    cases hps : ParseExpressionType s with
    | ok t => rw [hps] at hp; simp [Res.isErr] at hp
    | error e => simp [ExpressionUnmarshalJSON, hv, unmarshalString, hps, Res.isErr]

theorem disc_ComparisonValue (o : JsonObj) :
    (jLookup "type" o = none → (ComparisonValueUnmarshalJSON (.jobj o)).isErr = true) ∧
    (∀ v, jLookup "type" o = some v → (∀ s, v ≠ .jstr s) →
        (ComparisonValueUnmarshalJSON (.jobj o)).isErr = true) ∧
    (∀ s, jLookup "type" o = some (.jstr s) → (ParseComparisonValueType s).isErr = true →
        (ComparisonValueUnmarshalJSON (.jobj o)).isErr = true) := by
  refine ⟨?_, ?_, ?_⟩
  · intro h
    simp [ComparisonValueUnmarshalJSON, h, Res.isErr]
  · intro v hv hns
    cases v with
    | jstr s => exact absurd rfl (hns s)
    | jnull =>
        simp [ComparisonValueUnmarshalJSON, hv, unmarshalString, ParseComparisonValueType,
          Contains, Res.isErr]
    | jbool b => simp [ComparisonValueUnmarshalJSON, hv, unmarshalString, Res.isErr]
    | jnum n => simp [ComparisonValueUnmarshalJSON, hv, unmarshalString, Res.isErr]
    | jarr l => simp [ComparisonValueUnmarshalJSON, hv, unmarshalString, Res.isErr]
    | jobj o2 => simp [ComparisonValueUnmarshalJSON, hv, unmarshalString, Res.isErr]
  · intro s hv hp
    cases hps : ParseComparisonValueType s with
    | ok t => rw [hps] at hp; simp [Res.isErr] at hp
    | error e => simp [ComparisonValueUnmarshalJSON, hv, unmarshalString, hps, Res.isErr]

theorem disc_Aggregate (o : JsonObj) :
    (jLookup "type" o = none → (AggregateUnmarshalJSON (.jobj o)).isErr = true) ∧
    (∀ v, jLookup "type" o = some v → (∀ s, v ≠ .jstr s) →
        (AggregateUnmarshalJSON (.jobj o)).isErr = true) ∧
    (∀ s, jLookup "type" o = some (.jstr s) → (ParseAggregateType s).isErr = true →
        (AggregateUnmarshalJSON (.jobj o)).isErr = true) := by
  refine ⟨?_, ?_, ?_⟩
  · intro h
    simp [AggregateUnmarshalJSON, h, Res.isErr]
  · intro v hv hns
    cases v with
    | jstr s => exact absurd rfl (hns s)
    | jnull =>
        simp [AggregateUnmarshalJSON, hv, unmarshalString, ParseAggregateType, Contains,
          Res.isErr]
    | jbool b => simp [AggregateUnmarshalJSON, hv, unmarshalString, Res.isErr]
    | jnum n => simp [AggregateUnmarshalJSON, hv, unmarshalString, Res.isErr]
    | jarr l => simp [AggregateUnmarshalJSON, hv, unmarshalString, Res.isErr]
    | jobj o2 => simp [AggregateUnmarshalJSON, hv, unmarshalString, Res.isErr]
  · intro s hv hp
    cases hps : ParseAggregateType s with
    | ok t => rw [hps] at hp; simp [Res.isErr] at hp
    | error e => simp [AggregateUnmarshalJSON, hv, unmarshalString, hps, Res.isErr]

theorem disc_OrderByTarget (o : JsonObj) :
    (jLookup "type" o = none → (OrderByTargetUnmarshalJSON (.jobj o)).isErr = true) ∧
    (∀ v, jLookup "type" o = some v → (∀ s, v ≠ .jstr s) →
        (OrderByTargetUnmarshalJSON (.jobj o)).isErr = true) ∧
    (∀ s, jLookup "type" o = some (.jstr s) → (ParseOrderByTargetType s).isErr = true →
        (OrderByTargetUnmarshalJSON (.jobj o)).isErr = true) := by
  refine ⟨?_, ?_, ?_⟩
  · intro h
    simp [OrderByTargetUnmarshalJSON, h, Res.isErr]
  · intro v hv hns
    cases v with
    | jstr s => exact absurd rfl (hns s)
    | jnull =>
        simp [OrderByTargetUnmarshalJSON, hv, unmarshalString, ParseOrderByTargetType,
          Contains, Res.isErr]
    | jbool b => simp [OrderByTargetUnmarshalJSON, hv, unmarshalString, Res.isErr]
    | jnum n => simp [OrderByTargetUnmarshalJSON, hv, unmarshalString, Res.isErr]
    | jarr l => simp [OrderByTargetUnmarshalJSON, hv, unmarshalString, Res.isErr]
    | jobj o2 => simp [OrderByTargetUnmarshalJSON, hv, unmarshalString, Res.isErr]
  · intro s hv hp
    cases hps : ParseOrderByTargetType s with
    | ok t => rw [hps] at hp; simp [Res.isErr] at hp
    | error e => simp [OrderByTargetUnmarshalJSON, hv, unmarshalString, hps, Res.isErr]

theorem disc_ExistsInCollection (o : JsonObj) :
    (jLookup "type" o = none → (ExistsInCollectionUnmarshalJSON (.jobj o)).isErr = true) ∧
    (∀ v, jLookup "type" o = some v → (∀ s, v ≠ .jstr s) →
        (ExistsInCollectionUnmarshalJSON (.jobj o)).isErr = true) ∧
    (∀ s, jLookup "type" o = some (.jstr s) → (ParseExistsInCollectionType s).isErr = true →
        (ExistsInCollectionUnmarshalJSON (.jobj o)).isErr = true) := by
  refine ⟨?_, ?_, ?_⟩
  · intro h
    simp [ExistsInCollectionUnmarshalJSON, h, Res.isErr]
  · intro v hv hns
    cases v with
    | jstr s => exact absurd rfl (hns s)
    | jnull =>
        simp [ExistsInCollectionUnmarshalJSON, hv, unmarshalString,
          ParseExistsInCollectionType, Contains, Res.isErr]
    | jbool b => simp [ExistsInCollectionUnmarshalJSON, hv, unmarshalString, Res.isErr]
    | jnum n => simp [ExistsInCollectionUnmarshalJSON, hv, unmarshalString, Res.isErr]
    | jarr l => simp [ExistsInCollectionUnmarshalJSON, hv, unmarshalString, Res.isErr]
    | jobj o2 => simp [ExistsInCollectionUnmarshalJSON, hv, unmarshalString, Res.isErr]
  · intro s hv hp
    cases hps : ParseExistsInCollectionType s with
    | ok t => rw [hps] at hp; simp [Res.isErr] at hp
    | error e => simp [ExistsInCollectionUnmarshalJSON, hv, unmarshalString, hps, Res.isErr]

theorem disc_Field (o : JsonObj) :
    (jLookup "type" o = none → (FieldUnmarshalJSON (.jobj o)).isErr = true) ∧
    (∀ v, jLookup "type" o = some v → (∀ s, v ≠ .jstr s) →
        (FieldUnmarshalJSON (.jobj o)).isErr = true) ∧
    (∀ s, jLookup "type" o = some (.jstr s) → (ParseFieldType s).isErr = true →
        (FieldUnmarshalJSON (.jobj o)).isErr = true) := by
  refine ⟨?_, ?_, ?_⟩
  · intro h
    simp [FieldUnmarshalJSON, h, Res.isErr]
  · intro v hv hns
    cases v with
    | jstr s => exact absurd rfl (hns s)
    | jnull => simp [FieldUnmarshalJSON, hv, unmarshalString, ParseFieldType, Res.isErr]
    | jbool b => simp [FieldUnmarshalJSON, hv, unmarshalString, Res.isErr]
    | jnum n => simp [FieldUnmarshalJSON, hv, unmarshalString, Res.isErr]
    | jarr l => simp [FieldUnmarshalJSON, hv, unmarshalString, Res.isErr]
    | jobj o2 => simp [FieldUnmarshalJSON, hv, unmarshalString, Res.isErr]
  · intro s hv hp
    cases hps : ParseFieldType s with
    | ok t => rw [hps] at hp; simp [Res.isErr] at hp
    | error e => simp [FieldUnmarshalJSON, hv, unmarshalString, hps, Res.isErr]

/-- C5: For every tagged-union decoder (`Type`, `Expression`,
`ComparisonValue`, `Aggregate`, `OrderByTarget`, `ExistsInCollection`,
`Field`), decoding any object payload whose `"type"` key is absent, is not
a JSON string, or is a string that the union's enum parser rejects, fails
with a decode error — no input is silently assigned a default variant. -/
theorem C5_discriminant_rejection (o : JsonObj) :
    ((jLookup "type" o = none → (TypeUnmarshalJSON (.jobj o)).isErr = true) ∧
     (∀ v, jLookup "type" o = some v → (∀ s, v ≠ .jstr s) →
         (TypeUnmarshalJSON (.jobj o)).isErr = true) ∧
     (∀ s, jLookup "type" o = some (.jstr s) → (ParseTypeEnum s).isErr = true →
         (TypeUnmarshalJSON (.jobj o)).isErr = true)) ∧
    ((jLookup "type" o = none → (ExpressionUnmarshalJSON (.jobj o)).isErr = true) ∧
     (∀ v, jLookup "type" o = some v → (∀ s, v ≠ .jstr s) →
         (ExpressionUnmarshalJSON (.jobj o)).isErr = true) ∧
     (∀ s, jLookup "type" o = some (.jstr s) → (ParseExpressionType s).isErr = true →
         (ExpressionUnmarshalJSON (.jobj o)).isErr = true)) ∧
    ((jLookup "type" o = none → (ComparisonValueUnmarshalJSON (.jobj o)).isErr = true) ∧
     (∀ v, jLookup "type" o = some v → (∀ s, v ≠ .jstr s) →
         (ComparisonValueUnmarshalJSON (.jobj o)).isErr = true) ∧
     (∀ s, jLookup "type" o = some (.jstr s) → (ParseComparisonValueType s).isErr = true →
         (ComparisonValueUnmarshalJSON (.jobj o)).isErr = true)) ∧
    ((jLookup "type" o = none → (AggregateUnmarshalJSON (.jobj o)).isErr = true) ∧
     (∀ v, jLookup "type" o = some v → (∀ s, v ≠ .jstr s) →
         (AggregateUnmarshalJSON (.jobj o)).isErr = true) ∧
     (∀ s, jLookup "type" o = some (.jstr s) → (ParseAggregateType s).isErr = true →
         (AggregateUnmarshalJSON (.jobj o)).isErr = true)) ∧
    ((jLookup "type" o = none → (OrderByTargetUnmarshalJSON (.jobj o)).isErr = true) ∧
     (∀ v, jLookup "type" o = some v → (∀ s, v ≠ .jstr s) →
         (OrderByTargetUnmarshalJSON (.jobj o)).isErr = true) ∧
     (∀ s, jLookup "type" o = some (.jstr s) → (ParseOrderByTargetType s).isErr = true →
         (OrderByTargetUnmarshalJSON (.jobj o)).isErr = true)) ∧
    ((jLookup "type" o = none → (ExistsInCollectionUnmarshalJSON (.jobj o)).isErr = true) ∧
     (∀ v, jLookup "type" o = some v → (∀ s, v ≠ .jstr s) →
         (ExistsInCollectionUnmarshalJSON (.jobj o)).isErr = true) ∧
     (∀ s, jLookup "type" o = some (.jstr s) → (ParseExistsInCollectionType s).isErr = true →
         (ExistsInCollectionUnmarshalJSON (.jobj o)).isErr = true)) ∧
    ((jLookup "type" o = none → (FieldUnmarshalJSON (.jobj o)).isErr = true) ∧
     (∀ v, jLookup "type" o = some v → (∀ s, v ≠ .jstr s) →
         (FieldUnmarshalJSON (.jobj o)).isErr = true) ∧
     (∀ s, jLookup "type" o = some (.jstr s) → (ParseFieldType s).isErr = true →
         (FieldUnmarshalJSON (.jobj o)).isErr = true)) :=
  ⟨disc_Type o, disc_Expression o, disc_ComparisonValue o, disc_Aggregate o,
   disc_OrderByTarget o, disc_ExistsInCollection o, disc_Field o⟩

/-- Witness for C5: concrete inputs with a missing `"type"` key, a numeric
`"type"`, and the unknown tag `"bogus"`, decoded by all seven unions. -/
theorem C5_discriminant_rejection_witness :
    ((TypeUnmarshalJSON (.jobj .nil)).isErr = true ∧
     (TypeUnmarshalJSON (.jobj (.cons "type" (.jnum 1) .nil))).isErr = true ∧
     (TypeUnmarshalJSON (.jobj (.cons "type" (.jstr "bogus") .nil))).isErr = true) ∧
    ((ExpressionUnmarshalJSON (.jobj .nil)).isErr = true ∧
     (ExpressionUnmarshalJSON (.jobj (.cons "type" (.jnum 1) .nil))).isErr = true ∧
     (ExpressionUnmarshalJSON (.jobj (.cons "type" (.jstr "bogus") .nil))).isErr = true) ∧
    ((ComparisonValueUnmarshalJSON (.jobj .nil)).isErr = true ∧
     (ComparisonValueUnmarshalJSON (.jobj (.cons "type" (.jnum 1) .nil))).isErr = true ∧
     (ComparisonValueUnmarshalJSON (.jobj (.cons "type" (.jstr "bogus") .nil))).isErr = true) ∧
    ((AggregateUnmarshalJSON (.jobj .nil)).isErr = true ∧
     (AggregateUnmarshalJSON (.jobj (.cons "type" (.jnum 1) .nil))).isErr = true ∧
     (AggregateUnmarshalJSON (.jobj (.cons "type" (.jstr "bogus") .nil))).isErr = true) ∧
    ((OrderByTargetUnmarshalJSON (.jobj .nil)).isErr = true ∧
     (OrderByTargetUnmarshalJSON (.jobj (.cons "type" (.jnum 1) .nil))).isErr = true ∧
     (OrderByTargetUnmarshalJSON (.jobj (.cons "type" (.jstr "bogus") .nil))).isErr = true) ∧
    ((ExistsInCollectionUnmarshalJSON (.jobj .nil)).isErr = true ∧
     (ExistsInCollectionUnmarshalJSON (.jobj (.cons "type" (.jnum 1) .nil))).isErr = true ∧
     (ExistsInCollectionUnmarshalJSON
        (.jobj (.cons "type" (.jstr "bogus") .nil))).isErr = true) ∧
    ((FieldUnmarshalJSON (.jobj .nil)).isErr = true ∧
     (FieldUnmarshalJSON (.jobj (.cons "type" (.jnum 1) .nil))).isErr = true ∧
     (FieldUnmarshalJSON (.jobj (.cons "type" (.jstr "bogus") .nil))).isErr = true) :=
  ⟨⟨(C5_discriminant_rejection .nil).1.1 rfl,
    (C5_discriminant_rejection _).1.2.1 (.jnum 1) rfl (fun _ h => Json.noConfusion h),
    (C5_discriminant_rejection _).1.2.2 "bogus" rfl rfl⟩,
   ⟨(C5_discriminant_rejection .nil).2.1.1 rfl,
    (C5_discriminant_rejection _).2.1.2.1 (.jnum 1) rfl (fun _ h => Json.noConfusion h),
    (C5_discriminant_rejection _).2.1.2.2 "bogus" rfl rfl⟩,
   ⟨(C5_discriminant_rejection .nil).2.2.1.1 rfl,
    (C5_discriminant_rejection _).2.2.1.2.1 (.jnum 1) rfl (fun _ h => Json.noConfusion h),
    (C5_discriminant_rejection _).2.2.1.2.2 "bogus" rfl rfl⟩,
   ⟨(C5_discriminant_rejection .nil).2.2.2.1.1 rfl,
    (C5_discriminant_rejection _).2.2.2.1.2.1 (.jnum 1) rfl (fun _ h => Json.noConfusion h),
    (C5_discriminant_rejection _).2.2.2.1.2.2 "bogus" rfl rfl⟩,
   ⟨(C5_discriminant_rejection .nil).2.2.2.2.1.1 rfl,
    (C5_discriminant_rejection _).2.2.2.2.1.2.1 (.jnum 1) rfl (fun _ h => Json.noConfusion h),
    (C5_discriminant_rejection _).2.2.2.2.1.2.2 "bogus" rfl rfl⟩,
   ⟨(C5_discriminant_rejection .nil).2.2.2.2.2.1.1 rfl,
    (C5_discriminant_rejection _).2.2.2.2.2.1.2.1 (.jnum 1) rfl
      (fun _ h => Json.noConfusion h),
    (C5_discriminant_rejection _).2.2.2.2.2.1.2.2 "bogus" rfl rfl⟩,
   ⟨(C5_discriminant_rejection .nil).2.2.2.2.2.2.1 rfl,
    (C5_discriminant_rejection _).2.2.2.2.2.2.2.1 (.jnum 1) rfl
      (fun _ h => Json.noConfusion h),
    (C5_discriminant_rejection _).2.2.2.2.2.2.2.2 "bogus" rfl rfl⟩⟩

/-- C6: Every variant-specific narrowing accessor, applied to a union
value whose discriminant resolves to a different variant tag, returns the
"invalid type" error carrying the actual tag — it never returns a
zero-valued or partially populated variant struct. -/
theorem C6_narrowing_mismatch :
    (∀ m t, TypeGetType m = .ok t → t ≠ "named" →
        TypeAsNamed m = .error ("invalid type; expected named, got " ++ t)) ∧
    (∀ m t, TypeGetType m = .ok t → t ≠ "nullable" →
        TypeAsNullable m = .error ("invalid type; expected nullable, got " ++ t)) ∧
    (∀ m t, TypeGetType m = .ok t → t ≠ "array" →
        TypeAsArray m = .error ("invalid type; expected array, got " ++ t)) ∧
    (∀ m t, FieldGetType m = .ok t → t ≠ "column" →
        FieldAsColumn m = .error ("invalid type; expected column, got " ++ t)) ∧
    (∀ m t, FieldGetType m = .ok t → t ≠ "relationship" →
        FieldAsRelationship m = .error ("invalid type; expected relationship, got " ++ t)) ∧
    (∀ m t, ComparisonValueGetType m = .ok t → t ≠ "scalar" →
        ComparisonValueAsScalar m = .error ("invalid type; expected scalar, got " ++ t)) ∧
    (∀ m t, ComparisonValueGetType m = .ok t → t ≠ "column" →
        ComparisonValueAsColumn m = .error ("invalid type; expected column, got " ++ t)) ∧
    (∀ m t, ComparisonValueGetType m = .ok t → t ≠ "variable" →
        ComparisonValueAsVariable m = .error ("invalid type; expected variable, got " ++ t)) ∧
    (∀ m t, AggregateGetType m = .ok t → t ≠ "star_count" →
        AggregateAsStarCount m = .error ("invalid type; expected: star_count, got: " ++ t)) ∧
    (∀ m t, AggregateGetType m = .ok t → t ≠ "single_column" →
        AggregateAsSingleColumn m =
          .error ("invalid type; expected: single_column, got: " ++ t)) ∧
    (∀ m t, AggregateGetType m = .ok t → t ≠ "column_count" →
        AggregateAsColumnCount m =
          .error ("invalid type; expected: column_count, got: " ++ t)) ∧
    (∀ m t, OrderByTargetGetType m = .ok t → t ≠ "column" →
        OrderByTargetAsColumn m = .error ("invalid type; expected: column, got: " ++ t)) ∧
    (∀ m t, OrderByTargetGetType m = .ok t → t ≠ "single_column_aggregate" →
        OrderByTargetAsSingleColumnAggregate m =
          .error ("invalid type; expected: single_column_aggregate, got: " ++ t)) ∧
    (∀ m t, OrderByTargetGetType m = .ok t → t ≠ "star_count_aggregate" →
        OrderByTargetAsStarCountAggregate m =
          .error ("invalid type; expected: star_count_aggregate, got: " ++ t)) ∧
    (∀ m t, ExistsInCollectionGetType m = .ok t → t ≠ "related" →
        ExistsInCollectionAsRelated m =
          .error ("invalid type; expected: related, got: " ++ t)) ∧
    (∀ m t, ExistsInCollectionGetType m = .ok t → t ≠ "unrelated" →
        ExistsInCollectionAsUnrelated m =
          .error ("invalid type; expected: unrelated, got: " ++ t)) ∧
    (∀ m t, ExpressionGetType m = .ok t → t ≠ "and" →
        ExpressionAsAnd m = .error ("invalid type; expected: and, got: " ++ t)) ∧
    (∀ m t, ExpressionGetType m = .ok t → t ≠ "or" →
        ExpressionAsOr m = .error ("invalid type; expected: or, got: " ++ t)) ∧
    (∀ m t, ExpressionGetType m = .ok t → t ≠ "not" →
        ExpressionAsNot m = .error ("invalid type; expected: not, got: " ++ t)) ∧
    (∀ m t, ExpressionGetType m = .ok t → t ≠ "unary_comparison_operator" →
        ExpressionAsUnaryComparisonOperator m =
          .error ("invalid type; expected: unary_comparison_operator, got: " ++ t)) ∧
    (∀ m t, ExpressionGetType m = .ok t → t ≠ "binary_comparison_operator" →
        ExpressionAsBinaryComparisonOperator m =
          .error ("invalid type; expected: binary_comparison_operator, got: " ++ t)) ∧
    (∀ m t, ExpressionGetType m = .ok t → t ≠ "binary_array_comparison_operator" →
        ExpressionAsBinaryArrayComparisonOperator m =
          .error ("invalid type; expected: binary_array_comparison_operator, got: " ++ t)) ∧
    (∀ m t, ExpressionGetType m = .ok t → t ≠ "exists" →
        ExpressionAsExists m = .error ("invalid type; expected: exists, got: " ++ t)) :=
  ⟨fun m t h hne => by simp [TypeAsNamed, h, hne],
   fun m t h hne => by simp [TypeAsNullable, h, hne],
   fun m t h hne => by simp [TypeAsArray, h, hne],
   fun m t h hne => by simp [FieldAsColumn, h, hne],
   fun m t h hne => by simp [FieldAsRelationship, h, hne],
   fun m t h hne => by simp [ComparisonValueAsScalar, h, hne],
   fun m t h hne => by simp [ComparisonValueAsColumn, h, hne],
   fun m t h hne => by simp [ComparisonValueAsVariable, h, hne],
   fun m t h hne => by simp [AggregateAsStarCount, h, hne],
   fun m t h hne => by simp [AggregateAsSingleColumn, h, hne],
   fun m t h hne => by simp [AggregateAsColumnCount, h, hne],
   fun m t h hne => by simp [OrderByTargetAsColumn, h, hne],
   fun m t h hne => by simp [OrderByTargetAsSingleColumnAggregate, h, hne],
   fun m t h hne => by simp [OrderByTargetAsStarCountAggregate, h, hne],
   fun m t h hne => by simp [ExistsInCollectionAsRelated, h, hne],
   fun m t h hne => by simp [ExistsInCollectionAsUnrelated, h, hne],
   fun m t h hne => by simp [ExpressionAsAnd, h, hne],
   fun m t h hne => by simp [ExpressionAsOr, h, hne],
   fun m t h hne => by simp [ExpressionAsNot, h, hne],
   fun m t h hne => by simp [ExpressionAsUnaryComparisonOperator, h, hne],
   fun m t h hne => by simp [ExpressionAsBinaryComparisonOperator, h, hne],
   fun m t h hne => by simp [ExpressionAsBinaryArrayComparisonOperator, h, hne],
   fun m t h hne => by simp [ExpressionAsExists, h, hne]⟩

/-- Witness for C6: each accessor applied to a concretely tagged map of a
different variant yields the "invalid type" error. -/
theorem C6_narrowing_mismatch_witness :
    TypeAsNamed (.cons "type" (.vTypeEnum "nullable") .nil) =
      .error ("invalid type; expected named, got " ++ "nullable") ∧
    TypeAsNullable (.cons "type" (.vTypeEnum "named") .nil) =
      .error ("invalid type; expected nullable, got " ++ "named") ∧
    TypeAsArray (.cons "type" (.vTypeEnum "named") .nil) =
      .error ("invalid type; expected array, got " ++ "named") ∧
    FieldAsColumn (.cons "type" (.vFieldType "relationship") .nil) =
      .error ("invalid type; expected column, got " ++ "relationship") ∧
    FieldAsRelationship (.cons "type" (.vFieldType "column") .nil) =
      .error ("invalid type; expected relationship, got " ++ "column") ∧
    ComparisonValueAsScalar (.cons "type" (.vCVType "column") .nil) =
      .error ("invalid type; expected scalar, got " ++ "column") ∧
    ComparisonValueAsColumn (.cons "type" (.vCVType "scalar") .nil) =
      .error ("invalid type; expected column, got " ++ "scalar") ∧
    ComparisonValueAsVariable (.cons "type" (.vCVType "column") .nil) =
      .error ("invalid type; expected variable, got " ++ "column") ∧
    AggregateAsStarCount (.cons "type" (.vAggType "single_column") .nil) =
      .error ("invalid type; expected: star_count, got: " ++ "single_column") ∧
    AggregateAsSingleColumn (.cons "type" (.vAggType "star_count") .nil) =
      .error ("invalid type; expected: single_column, got: " ++ "star_count") ∧
    AggregateAsColumnCount (.cons "type" (.vAggType "star_count") .nil) =
      .error ("invalid type; expected: column_count, got: " ++ "star_count") ∧
    OrderByTargetAsColumn (.cons "type" (.vOBTType "single_column_aggregate") .nil) =
      .error ("invalid type; expected: column, got: " ++ "single_column_aggregate") ∧
    OrderByTargetAsSingleColumnAggregate (.cons "type" (.vOBTType "column") .nil) =
      .error ("invalid type; expected: single_column_aggregate, got: " ++ "column") ∧
    OrderByTargetAsStarCountAggregate (.cons "type" (.vOBTType "column") .nil) =
      .error ("invalid type; expected: star_count_aggregate, got: " ++ "column") ∧
    ExistsInCollectionAsRelated (.cons "type" (.vEICType "unrelated") .nil) =
      .error ("invalid type; expected: related, got: " ++ "unrelated") ∧
    ExistsInCollectionAsUnrelated (.cons "type" (.vEICType "related") .nil) =
      .error ("invalid type; expected: unrelated, got: " ++ "related") ∧
    ExpressionAsAnd (.cons "type" (.vExprType "or") .nil) =
      .error ("invalid type; expected: and, got: " ++ "or") ∧
    ExpressionAsOr (.cons "type" (.vExprType "and") .nil) =
      .error ("invalid type; expected: or, got: " ++ "and") ∧
    ExpressionAsNot (.cons "type" (.vExprType "and") .nil) =
      .error ("invalid type; expected: not, got: " ++ "and") ∧
    ExpressionAsUnaryComparisonOperator (.cons "type" (.vExprType "and") .nil) =
      .error ("invalid type; expected: unary_comparison_operator, got: " ++ "and") ∧
    ExpressionAsBinaryComparisonOperator (.cons "type" (.vExprType "and") .nil) =
      .error ("invalid type; expected: binary_comparison_operator, got: " ++ "and") ∧
    ExpressionAsBinaryArrayComparisonOperator (.cons "type" (.vExprType "and") .nil) =
      .error ("invalid type; expected: binary_array_comparison_operator, got: " ++ "and") ∧
    ExpressionAsExists (.cons "type" (.vExprType "and") .nil) =
      .error ("invalid type; expected: exists, got: " ++ "and") :=
  ⟨C6_narrowing_mismatch.1 _ "nullable" rfl (by decide),
   C6_narrowing_mismatch.2.1 _ "named" rfl (by decide),
   C6_narrowing_mismatch.2.2.1 _ "named" rfl (by decide),
   C6_narrowing_mismatch.2.2.2.1 _ "relationship" rfl (by decide),
   C6_narrowing_mismatch.2.2.2.2.1 _ "column" rfl (by decide),
   C6_narrowing_mismatch.2.2.2.2.2.1 _ "column" rfl (by decide),
   C6_narrowing_mismatch.2.2.2.2.2.2.1 _ "scalar" rfl (by decide),
   C6_narrowing_mismatch.2.2.2.2.2.2.2.1 _ "column" rfl (by decide),
   C6_narrowing_mismatch.2.2.2.2.2.2.2.2.1 _ "single_column" rfl (by decide),
   C6_narrowing_mismatch.2.2.2.2.2.2.2.2.2.1 _ "star_count" rfl (by decide),
   C6_narrowing_mismatch.2.2.2.2.2.2.2.2.2.2.1 _ "star_count" rfl (by decide),
   C6_narrowing_mismatch.2.2.2.2.2.2.2.2.2.2.2.1 _ "single_column_aggregate" rfl (by decide),
   C6_narrowing_mismatch.2.2.2.2.2.2.2.2.2.2.2.2.1 _ "column" rfl (by decide),
   C6_narrowing_mismatch.2.2.2.2.2.2.2.2.2.2.2.2.2.1 _ "column" rfl (by decide),
   C6_narrowing_mismatch.2.2.2.2.2.2.2.2.2.2.2.2.2.2.1 _ "unrelated" rfl (by decide),
   C6_narrowing_mismatch.2.2.2.2.2.2.2.2.2.2.2.2.2.2.2.1 _ "related" rfl (by decide),
   C6_narrowing_mismatch.2.2.2.2.2.2.2.2.2.2.2.2.2.2.2.2.1 _ "or" rfl (by decide),
   C6_narrowing_mismatch.2.2.2.2.2.2.2.2.2.2.2.2.2.2.2.2.2.1 _ "and" rfl (by decide),
   C6_narrowing_mismatch.2.2.2.2.2.2.2.2.2.2.2.2.2.2.2.2.2.2.1 _ "and" rfl (by decide),
   C6_narrowing_mismatch.2.2.2.2.2.2.2.2.2.2.2.2.2.2.2.2.2.2.2.1 _ "and" rfl (by decide),
   C6_narrowing_mismatch.2.2.2.2.2.2.2.2.2.2.2.2.2.2.2.2.2.2.2.2.1 _ "and" rfl (by decide),
   C6_narrowing_mismatch.2.2.2.2.2.2.2.2.2.2.2.2.2.2.2.2.2.2.2.2.2.1 _ "and" rfl
     (by decide),
   C6_narrowing_mismatch.2.2.2.2.2.2.2.2.2.2.2.2.2.2.2.2.2.2.2.2.2.2 _ "and" rfl
     (by decide)⟩

/-- C8: Decoding an `exists` Expression whose `in_collection` object has
type `unrelated` (resp. `related`) but no `"arguments"` key fails with the
wrapped decode error naming the missing `arguments` field. -/
theorem C8_exists_missing_arguments :
    ExpressionUnmarshalJSON (.jobj
      (.cons "type" (.jstr "exists")
        (.cons "where"
          (.jobj (.cons "type" (.jstr "and") (.cons "expressions" (.jarr .nil) .nil)))
          (.cons "in_collection"
            (.jobj (.cons "type" (.jstr "unrelated")
              (.cons "collection" (.jstr "articles") .nil)))
            .nil)))) =
      .error "field in_collection in Expression: field arguments in ExistsInCollection is required for unrelated type" ∧
    ExpressionUnmarshalJSON (.jobj
      (.cons "type" (.jstr "exists")
        (.cons "where"
          (.jobj (.cons "type" (.jstr "and") (.cons "expressions" (.jarr .nil) .nil)))
          (.cons "in_collection"
            (.jobj (.cons "type" (.jstr "related")
              (.cons "relationship" (.jstr "author") .nil)))
            .nil)))) =
      .error "field in_collection in Expression: field arguments in ExistsInCollection is required for related type" :=
  ⟨rfl, rfl⟩

/-- C10: `Expression.AsUnaryComparisonOperator` accepts the `operator`
payload either as a typed `UnaryComparisonOperator` or as a raw string
(converting it), succeeding on a map with the `unary_comparison_operator`
discriminant, a string operator, and a `ComparisonTarget` column;
`Expression.AsBinaryComparisonOperator` rejects a raw-string operator in
the same position with a narrowing error. -/
theorem C10_unary_string_operator :
    (∀ (op : String) (ct : ComparisonTarget),
      ExpressionAsUnaryComparisonOperator
        (.cons "type" (.vExprType "unary_comparison_operator")
          (.cons "operator" (.vStr op) (.cons "column" (.vCT ct) .nil))) =
        .ok { xtype := "unary_comparison_operator", operator := op, column := ct }) ∧
    (∀ (op : String) (ct : ComparisonTarget),
      ExpressionAsUnaryComparisonOperator
        (.cons "type" (.vExprType "unary_comparison_operator")
          (.cons "operator" (.vUCO op) (.cons "column" (.vCT ct) .nil))) =
        .ok { xtype := "unary_comparison_operator", operator := op, column := ct }) ∧
    (∀ (op : String) (ct : ComparisonTarget) (cv : GoMap),
      ExpressionAsBinaryComparisonOperator
        (.cons "type" (.vExprType "binary_comparison_operator")
          (.cons "operator" (.vStr op)
            (.cons "column" (.vCT ct) (.cons "value" (.vCVMap cv) .nil)))) =
        .error "invalid ExpressionBinaryComparisonOperator.operator type; expected: BinaryComparisonOperator") :=
  ⟨fun _ _ => rfl, fun _ _ => rfl, fun _ _ _ => rfl⟩

/-- C2: refuted. The import lines of the generated connector file
(`genConnectorCodeFromTemplate`) and the `import (...)` block of a
generated type file (`connectorTypeBuilder.String`) are emitted in Go
map-iteration order, which is unspecified: two permutations of the same
key set — both legal iteration orders of the unchanged catalogue — yield
different output bytes, so generation is not canonical-order
deterministic. -/
theorem C2_generation_not_deterministic :
    List.Perm ["github.com/a/b", "github.com/c/d"] ["github.com/c/d", "github.com/a/b"] ∧
    genConnectorImportLines ["github.com/a/b", "github.com/c/d"] ≠
      genConnectorImportLines ["github.com/c/d", "github.com/a/b"] ∧
    List.Perm [("fmt", ""), ("encoding/json", "")] [("encoding/json", ""), ("fmt", "")] ∧
    ctbImportBlock [("fmt", ""), ("encoding/json", "")] ≠
      ctbImportBlock [("encoding/json", ""), ("fmt", "")] :=
  ⟨List.Perm.swap _ _ _, by decide, List.Perm.swap _ _ _, by decide⟩

/-- C3 (amended): the null-result policy is implemented only for
operations whose declared result type is non-scalar. For those, a nil
user result yields `return nil, nil` when the result type is nullable and
a `BadRequest` "expected not null result" otherwise, in both the
query-function and the mutation-procedure dispatch branches. (Scalar
results bypass the policy, see the counterexample.) -/
theorem C3_null_result_policy {α : Type} (rt : TypeInfo) (h : rt.isScalar = false)
    (fieldsLen : Nat) (hasArgs : Bool) (encodeF evalF : α → Res α) :
    runFunctionBranch rt fieldsLen hasArgs (.ok ()) (.ok ()) (.ok none) encodeF =
      (true, if rt.isNullable then Outcome.ok none
             else .badRequest "expected not null result") ∧
    runProcedureBranch rt fieldsLen (.ok ()) hasArgs (.ok ()) (.ok none) evalF =
      (true, if rt.isNullable then Outcome.ok none
             else .badRequest "expected not null result") := by
  obtain ⟨s, nb, ab⟩ := rt
  cases s with
  | true => exact Bool.noConfusion h
  | false =>
      cases hasArgs <;> cases nb <;>
        simp [runFunctionBranch, runProcedureBranch]

/-- Witness for C3: a nullable object result with a nil user result
succeeds with nil; a non-nullable object result with a nil user result is
a `BadRequest`. -/
theorem C3_null_result_policy_witness :
    (runFunctionBranch ⟨false, true, false⟩ 0 false (.ok ()) (.ok ())
        (Res.ok (none : Option Unit)) (fun v => .ok v) = (true, .ok none) ∧
     runProcedureBranch ⟨false, true, false⟩ 0 (.ok ()) false (.ok ())
        (Res.ok (none : Option Unit)) (fun v => .ok v) = (true, .ok none)) ∧
    (runFunctionBranch ⟨false, false, false⟩ 0 false (.ok ()) (.ok ())
        (Res.ok (none : Option Unit)) (fun v => .ok v) =
        (true, .badRequest "expected not null result") ∧
     runProcedureBranch ⟨false, false, false⟩ 0 (.ok ()) false (.ok ())
        (Res.ok (none : Option Unit)) (fun v => .ok v) =
        (true, .badRequest "expected not null result")) :=
  ⟨C3_null_result_policy ⟨false, true, false⟩ rfl 0 false (fun v => .ok v) (fun v => .ok v),
   C3_null_result_policy ⟨false, false, false⟩ rfl 0 false (fun v => .ok v) (fun v => .ok v)⟩

/-- Counterexample bounding C3's original wording ("for every
operation"): for a scalar, non-nullable result type the generated branch
returns the user function's nil result as a success instead of a
`BadRequest` — the policy is skipped for scalars. -/
theorem C3_scalar_nil_counterexample :
    runFunctionBranch ⟨true, false, false⟩ 0 false (.ok ()) (.ok ())
      (Res.ok (none : Option Unit)) (fun v => .ok v) = (true, .ok none) ∧
    runProcedureBranch ⟨true, false, false⟩ 0 (.ok ()) false (.ok ())
      (Res.ok (none : Option Unit)) (fun v => .ok v) = (true, .ok none) :=
  ⟨rfl, rfl⟩

/-- C4: for a scalar-result operation, a request with a non-empty
field-selection set makes the generated branch return the `BadRequest`
"cannot evaluate selection fields for scalar" with the user function not
invoked (`false` in the first component), for any argument outcomes, user
outcome, and encoder. -/
theorem C4_scalar_selection_rejected {α : Type} (rt : TypeInfo) (h : rt.isScalar = true)
    (fieldsLen : Nat) (hf : 0 < fieldsLen) (hasArgs : Bool)
    (resolveVars fromValue selection decodeArgs : Res Unit)
    (user : Res (Option α)) (encodeF evalF : α → Res α) :
    runFunctionBranch rt fieldsLen hasArgs resolveVars fromValue user encodeF =
      (false, .badRequest "cannot evaluate selection fields for scalar") ∧
    runProcedureBranch rt fieldsLen selection hasArgs decodeArgs user evalF =
      (false, .badRequest "cannot evaluate selection fields for scalar") := by
  constructor <;> simp [runFunctionBranch, runProcedureBranch, h, hf]

/-- Witness for C4: a scalar result with one selected field is rejected
without invoking the user function. -/
theorem C4_scalar_selection_rejected_witness :
    runFunctionBranch ⟨true, false, false⟩ 1 false (.ok ()) (.ok ())
      (Res.ok (some ())) (fun v => .ok v) =
      (false, .badRequest "cannot evaluate selection fields for scalar") ∧
    runProcedureBranch ⟨true, false, false⟩ 1 (.ok ()) false (.ok ())
      (Res.ok (some ())) (fun v => .ok v) =
      (false, .badRequest "cannot evaluate selection fields for scalar") :=
  C4_scalar_selection_rejected ⟨true, false, false⟩ rfl 1 (by decide) false
    (.ok ()) (.ok ()) (.ok ()) (.ok ()) (.ok (some ())) (fun v => .ok v) (fun v => .ok v)

/-- C9: for a scalar-result operation (with an empty selection set) the
generated branch returns the user function's `(result, err)` pair
directly — in particular a nil result is passed through as a success with
no nil check; the null-result policy branch is only emitted for
non-scalar result types. -/
theorem C9_scalar_direct_return {α : Type} (rt : TypeInfo) (h : rt.isScalar = true)
    (hasArgs : Bool) (user : Res (Option α)) (encodeF evalF : α → Res α) :
    runFunctionBranch rt 0 hasArgs (.ok ()) (.ok ()) user encodeF =
      (true, match user with | .error e => Outcome.err e | .ok v => Outcome.ok v) ∧
    runProcedureBranch rt 0 (.ok ()) hasArgs (.ok ()) user evalF =
      (true, match user with | .error e => Outcome.err e | .ok v => Outcome.ok v) := by
  obtain ⟨s, nb, ab⟩ := rt
  cases s with
  | false => exact Bool.noConfusion h
  | true =>
      cases hasArgs <;> cases user <;>
        simp [runFunctionBranch, runProcedureBranch]

/-- Witness for C9: a scalar operation whose user function returns nil
succeeds with nil (no "expected not null result" error). -/
theorem C9_scalar_direct_return_witness :
    runFunctionBranch ⟨true, false, false⟩ 0 false (.ok ()) (.ok ())
      (Res.ok (none : Option Unit)) (fun v => .ok v) = (true, .ok none) ∧
    runProcedureBranch ⟨true, false, false⟩ 0 (.ok ()) false (.ok ())
      (Res.ok (none : Option Unit)) (fun v => .ok v) = (true, .ok none) :=
  C9_scalar_direct_return ⟨true, false, false⟩ rfl false (.ok none)
    (fun v => .ok v) (fun v => .ok v)

/-- C7: refuted. When the database query succeeds, `Connector.Query`
builds and appends exactly one row-set, whatever `request.Variables`
holds — the response length is always 1, not one row-set per
variable-binding set. -/
theorem C7_single_row_set (reqVariables : Option (List QueryRequestVariablesElem))
    (res : DbResult) :
    ConnectorQuery reqVariables (.ok res) =
      .ok [⟨res.rows.map (fun r => buildRowMap res.cols r)⟩] ∧
    ∀ rowSets, ConnectorQuery reqVariables (.ok res) = .ok rowSets → rowSets.length = 1 := by
  refine ⟨rfl, ?_⟩
  intro rs h
  have h2 : (Res.ok [(⟨res.rows.map (fun r => buildRowMap res.cols r)⟩ : RowSet)] :
      Res (List RowSet)) = Res.ok rs := h
  injection h2 with h3
  rw [← h3]
  rfl

/-- Witness for C7: a concrete request with two variable-binding sets
and one scanned database row produces a single row-set. -/
theorem C7_single_row_set_witness :
    ConnectorQuery (some [[], []]) (Res.ok ⟨["id"], [[DbValue.vbytes "1"]]⟩) =
      Res.ok [⟨[[("id", GoValue.vStr "1")]]⟩] ∧
    ([(⟨[[("id", GoValue.vStr "1")]]⟩ : RowSet)] : List RowSet).length = 1 :=
  ⟨(C7_single_row_set (some [[], []]) ⟨["id"], [[DbValue.vbytes "1"]]⟩).1,
   (C7_single_row_set (some [[], []]) ⟨["id"], [[DbValue.vbytes "1"]]⟩).2 _ rfl⟩

/-- Counterexample for C7's claimed per-variable-set fan-out: a request
carrying two variable-binding sets still gets a single row-set back. -/
theorem C7_counterexample :
    ConnectorQuery (some [[], []]) (Res.ok ⟨[], []⟩) = Res.ok [⟨[]⟩] ∧
    ([[], []] : List QueryRequestVariablesElem).length = 2 ∧
    ([(⟨[]⟩ : RowSet)] : List RowSet).length ≠ 2 :=
  ⟨rfl, rfl, by decide⟩

end NDC
